import Mathlib

/-!
# Verification of the cr8s container orchestrator

A shallow embedding of the cr8s repository (API server state and endpoints,
watch streams, scheduler filter/score pipeline, replica-set controller and
node-agent reconciler), with theorems settling the specification claims.

Modelling conventions:
* `uuid::Uuid` is modelled as `Nat` (an opaque identifier).
* `DateTime<Utc>` timestamps are modelled as `Nat`; `Utc::now()` becomes an
  explicit `now` parameter.
* `DashMap`/`HashMap` values are modelled as association lists, `DashSet` as
  lists without duplicates; the unspecified iteration order of a hash map is
  modelled by quantifying over the order of the corresponding list.
* Fallible store calls (etcd) are modelled by explicit `Bool` parameters
  (`getOk`, `putOk`, ...) giving the outcome of each store call, in program
  order; a failed call leaves the store unchanged and yields
  `StoreError.BackendError`, as in the source.
* `f64` scores are modelled by exact rationals `ℚ`.
-/

namespace Cr8s

/-- `uuid::Uuid`: opaque 128-bit identifier, modelled as `Nat`. -/
abbrev Uuid := Nat

/-- `DateTime<Utc>` timestamps, modelled as `Nat`. -/
abbrev Timestamp := Nat

/-! ## Association-list helpers (model of `DashMap` / etcd keyspace) -/

/-- Lookup in an association list (first binding wins). -/
def lookupAL {K V : Type} [DecidableEq K] : List (K × V) → K → Option V
  | [], _ => none
  | (k', v) :: t, k => if k' = k then some v else lookupAL t k

/-- Map update: replace the binding of `k` in place, or append it. -/
def putAL {K V : Type} [DecidableEq K] : List (K × V) → K → V → List (K × V)
  | [], k, v => [(k, v)]
  | (k', v') :: t, k, v => if k' = k then (k, v) :: t else (k', v') :: putAL t k v

/-- Map removal: drop every binding of `k`. -/
def removeAL {K V : Type} [DecidableEq K] (l : List (K × V)) (k : K) : List (K × V) :=
  l.filter (fun p => p.1 ≠ k)

/-- Set insertion (model of `DashSet::insert`). -/
def insertSet {α : Type} [DecidableEq α] (l : List α) (x : α) : List α :=
  if x ∈ l then l else x :: l

/-- Set removal (model of `DashSet::remove`). -/
def removeSet {α : Type} [DecidableEq α] (l : List α) (x : α) : List α :=
  l.erase x

/-! ## Shared object model (`src/shared/src/models/`) -/

/-- `metadata.rs OwnerKind`. -/
inductive OwnerKind where
  | ReplicaSet
deriving DecidableEq, Repr

/-- `metadata.rs OwnerReference`: back-pointer to the controlling parent. -/
structure OwnerReference where
  id : Uuid
  name : String
  kind : OwnerKind
  controller : Bool
deriving DecidableEq, Repr

/-- `metadata.rs Metadata`: server-side metadata of a top-level object. -/
structure Metadata where
  id : Uuid
  name : String
  owner_reference : Option OwnerReference
  created_at : Timestamp
  modified_at : Timestamp
  generation : Nat
  labels : List (String × String)
deriving DecidableEq, Repr

/-- `metadata.rs ObjectMetadata`: user-supplied metadata of a manifest. -/
structure ObjectMetadata where
  name : String
  owner_reference : Option OwnerReference
  labels : List (String × String)
deriving DecidableEq, Repr

/-- `metadata.rs From<ObjectMetadata> for Metadata`: the server fills `id`,
timestamps and `generation = 1`. -/
def Metadata.from_object (id : Uuid) (now : Timestamp) (o : ObjectMetadata) : Metadata :=
  { id := id, name := o.name, owner_reference := o.owner_reference,
    created_at := now, modified_at := now, generation := 1, labels := o.labels }

/-- `pod.rs ContainerSpec` (ports reduced to their `container_port` numbers). -/
structure ContainerSpec where
  name : String
  image : String
  ports : Option (List Nat)
  env : Option (List (String × String))
deriving DecidableEq, Repr

/-- `pod.rs PodSpec`. -/
structure PodSpec where
  node_name : String
  containers : List ContainerSpec
deriving DecidableEq, Repr

/-- `pod.rs PodPhase`. -/
inductive PodPhase where
  | Pending
  | Running
  | Unknown
  | Failed
  | Succeeded
deriving DecidableEq, Repr

/-- `pod.rs PodStatus`. -/
structure PodStatus where
  phase : PodPhase
  container_status : List (String × String)
  last_update : Option Timestamp
  observed_generation : Nat
deriving DecidableEq, Repr

/-- `pod.rs impl Default for PodStatus`. -/
def PodStatus.default : PodStatus :=
  { phase := .Pending, container_status := [], last_update := none,
    observed_generation := 0 }

/-- `pod.rs Pod`. -/
structure Pod where
  metadata : Metadata
  spec : PodSpec
  status : PodStatus
deriving DecidableEq, Repr

/-- The pod's node-name attribute.  The endpoint revision's pod record
(`models.rs PodObject`) exposes `node_name` as a direct field; in the
current model it lives in the spec (`spec.node_name`). -/
def Pod.node_name (p : Pod) : String := p.spec.node_name

/-- `node.rs NodeStatus`. -/
inductive NodeStatus where
  | Ready
  | Running
  | Stopped
deriving DecidableEq, Repr

/-- `node.rs Node`. -/
structure Node where
  id : Uuid
  name : String
  status : NodeStatus
  addr : String
  started_at : Timestamp
  last_heartbeat : Timestamp
deriving DecidableEq, Repr

/-- `api.rs PodContainers`. -/
structure PodContainers where
  containers : List ContainerSpec
deriving DecidableEq, Repr

/-- `api.rs PodManifest`: pod to be created (user metadata + containers). -/
structure PodManifest where
  metadata : ObjectMetadata
  spec : PodContainers
deriving DecidableEq, Repr

/-- `replicaset.rs ReplicaSetSpec` (`replicas : u16`, modelled as `Nat`). -/
structure ReplicaSetSpec where
  replicas : Nat
  template : PodManifest
deriving DecidableEq, Repr

/-- `replicaset.rs ReplicaSetStatus`. -/
structure ReplicaSetStatus where
  ready_replicas : Nat
  observed_generation : Nat
deriving DecidableEq, Repr

/-- `replicaset.rs impl Default for ReplicaSetStatus`. -/
def ReplicaSetStatus.default : ReplicaSetStatus :=
  { ready_replicas := 0, observed_generation := 0 }

/-- `replicaset.rs ReplicaSet`. -/
structure ReplicaSet where
  metadata : Metadata
  spec : ReplicaSetSpec
  status : ReplicaSetStatus
deriving DecidableEq, Repr

/-- `api.rs EventType`. -/
inductive EventType where
  | Added
  | Deleted
  | Modified
deriving DecidableEq, Repr

/-- `api.rs PodEvent`. -/
structure PodEvent where
  event_type : EventType
  pod : Pod
deriving DecidableEq, Repr

/-- `api.rs NodeEvent`. -/
structure NodeEvent where
  event_type : EventType
  node : Node
deriving DecidableEq, Repr

/-- `api.rs ReplicaSetEvent`. -/
structure ReplicaSetEvent where
  event_type : EventType
  replicaset : ReplicaSet
deriving DecidableEq, Repr

/-- `api.rs PodField` (the variants matched by the PATCH endpoint). -/
inductive PodField where
  | NodeName
  | Spec
deriving DecidableEq, Repr

/-- `api.rs PodPatch`: the `value` is the node name for `NodeName` patches. -/
structure PodPatch where
  pod_field : PodField
  value : String
deriving DecidableEq, Repr

/-- `api.rs PodStatusUpdate`. -/
structure PodStatusUpdate where
  node_name : String
  status : PodStatus
deriving DecidableEq, Repr

/-- `api.rs CreatePodParams`: "Signal if create comes from controller or
cli/user".  Declared in the source but read by no server endpoint. -/
structure CreatePodParams where
  controller : Option Bool
deriving DecidableEq, Repr

/-! ## Store errors (`src/server/src/store/errors.rs`) -/

/-- `errors.rs StoreError`. -/
inductive StoreError where
  | WrongFormat (msg : String)
  | Conflict (msg : String)
  | NotFound (msg : String)
  | InvalidReference (msg : String)
  | UnexpectedError (msg : String)
  | BackendError (msg : String)
deriving DecidableEq, Repr

/-- `errors.rs StoreError::to_http_response`, reduced to the status code. -/
def StoreError.to_http_response : StoreError → Nat
  | .WrongFormat _ => 400
  | .Conflict _ => 409
  | .NotFound _ => 404
  | .InvalidReference _ => 422
  | .UnexpectedError _ => 500
  | .BackendError _ => 500

/-! ## Cache layer (`src/server/src/state/cache.rs`)

The label index (`pod_label_idx`) is not touched by any of the
`ApiServerState` operations under study and is omitted. -/

/-- `cache.rs PodInfo`. -/
structure PodInfo where
  node : String
  id : Uuid
deriving DecidableEq, Repr

/-- `cache.rs CacheManager`. -/
structure CacheManager where
  node_names : List String
  node_addrs : List String
  pod_map : List (String × List Uuid)
  pod_name_idx : List (String × PodInfo)
  replicaset_names : List String
deriving DecidableEq, Repr

/-- `cache.rs CacheManager::new`. -/
def CacheManager.new : CacheManager :=
  { node_names := [], node_addrs := [], pod_map := [], pod_name_idx := [],
    replicaset_names := [] }

/-- `cache.rs node_name_exists`. -/
def CacheManager.node_name_exists (c : CacheManager) (name : String) : Bool :=
  c.node_names.contains name

/-- `cache.rs node_addr_exists`. -/
def CacheManager.node_addr_exists (c : CacheManager) (addr : String) : Bool :=
  c.node_addrs.contains addr

/-- `cache.rs add_node`. -/
def CacheManager.add_node (c : CacheManager) (name addr : String) : CacheManager :=
  { c with node_addrs := insertSet c.node_addrs addr,
           node_names := insertSet c.node_names name }

/-- `cache.rs replicaset_name_exists`. -/
def CacheManager.replicaset_name_exists (c : CacheManager) (name : String) : Bool :=
  c.replicaset_names.contains name

/-- `cache.rs add_replicaset`. -/
def CacheManager.add_replicaset (c : CacheManager) (name : String) : CacheManager :=
  { c with replicaset_names := insertSet c.replicaset_names name }

/-- `cache.rs pod_name_exists`. -/
def CacheManager.pod_name_exists (c : CacheManager) (name : String) : Bool :=
  (lookupAL c.pod_name_idx name).isSome

/-- `cache.rs get_pod_id`. -/
def CacheManager.get_pod_id (c : CacheManager) (name : String) : Option Uuid :=
  (lookupAL c.pod_name_idx name).map (fun s => s.id)

/-- `cache.rs get_pod_info`. -/
def CacheManager.get_pod_info (c : CacheManager) (name : String) : Option PodInfo :=
  lookupAL c.pod_name_idx name

/-- `cache.rs get_pod_ids`. -/
def CacheManager.get_pod_ids (c : CacheManager) (node_name : String) : Option (List Uuid) :=
  lookupAL c.pod_map node_name

/-- Insert `id` into the bucket of `node`, creating the bucket when absent
(`pod_map.entry(node).or_default().insert(id)`). -/
def bucketInsert (m : List (String × List Uuid)) (node : String) (id : Uuid) :
    List (String × List Uuid) :=
  putAL m node (insertSet ((lookupAL m node).getD []) id)

/-- Remove `id` from the bucket of `node` when that bucket exists
(`if let Some(set) = pod_map.get(node) { set.remove(id) }`). -/
def bucketRemove (m : List (String × List Uuid)) (node : String) (id : Uuid) :
    List (String × List Uuid) :=
  match lookupAL m node with
  | none => m
  | some set => putAL m node (removeSet set id)

/-- `cache.rs add_pod`: register the pod name, unassigned. -/
def CacheManager.add_pod (c : CacheManager) (name : String) (id : Uuid) : CacheManager :=
  { c with pod_name_idx := putAL c.pod_name_idx name { node := "", id := id },
           pod_map := bucketInsert c.pod_map "" id }

/-- `cache.rs delete_pod`. -/
def CacheManager.delete_pod (c : CacheManager) (name : String) : CacheManager :=
  match lookupAL c.pod_name_idx name with
  | none => c
  | some info =>
    { c with pod_name_idx := removeAL c.pod_name_idx name,
             pod_map := bucketRemove c.pod_map info.node info.id }

/-- `cache.rs assign_pod`: move the pod between buckets and update its info. -/
def CacheManager.assign_pod (c : CacheManager) (pod_name : String) (pod_id : Uuid)
    (node_name : String) : CacheManager :=
  let c1 :=
    match lookupAL c.pod_name_idx pod_name with
    | none => c
    | some info =>
      { c with pod_map := bucketRemove c.pod_map info.node pod_id,
               pod_name_idx := putAL c.pod_name_idx pod_name { info with node := node_name } }
  { c1 with pod_map := bucketInsert c1.pod_map node_name pod_id }

/-! ## Store and system state (`src/server/src/state/mod.rs`) -/

/-- The persistent store: typed keyspaces `/pods/<id>`, `/nodes/<name>`,
`/replicasets/<id>` (the `Store` trait's view). -/
structure StoreState where
  pods : List (Uuid × Pod)
  nodes : List (String × Node)
  replicasets : List (Uuid × ReplicaSet)
deriving DecidableEq, Repr

/-- The full `ApiServerState`: store, cache and the broadcast channels
(each channel modelled by the list of events sent on it so far). -/
structure SystemState where
  store : StoreState
  cache : CacheManager
  pod_events : List PodEvent
  node_events : List NodeEvent
  replicaset_events : List ReplicaSetEvent
deriving DecidableEq, Repr

/-- The empty server state (`new_with_store` with a fresh store). -/
def SystemState.empty : SystemState :=
  { store := { pods := [], nodes := [], replicasets := [] },
    cache := CacheManager.new, pod_events := [], node_events := [],
    replicaset_events := [] }

/-- One externally visible side effect of a state operation, in program
order: a store write, a cache mutation, or an event broadcast. -/
inductive Effect where
  | storeWrite
  | cacheWrite
  | broadcast
deriving DecidableEq, Repr

/-- Result of an `ApiServerState` operation: the Rust return value, the
state after the call, and the ordered trace of side effects. -/
structure OpResult (α : Type) where
  result : Except StoreError α
  state : SystemState
  trace : List Effect

/-- `mod.rs validate_container_list` inner loop (`seen_names` accumulator). -/
def validateContainersGo (seen : List String) : List ContainerSpec → Except StoreError Unit
  | [] => .ok ()
  | c :: rest =>
    if c.name ∈ seen then
      .error (.WrongFormat ("Duplicate container name found: " ++ c.name))
    else
      validateContainersGo (c.name :: seen) rest

/-- `mod.rs validate_container_list`: reject duplicate container names. -/
def validate_container_list (list : List ContainerSpec) : Except StoreError Unit :=
  validateContainersGo [] list

/-- `mod.rs validate_container_statuses`: keep only entries whose names are
spec container names, then append `(name, "EMPTY")` for every spec
container whose name is not among the retained entries. -/
def validate_container_statuses (spec : PodSpec) (container_statuses : List (String × String)) :
    List (String × String) :=
  let valid_names := spec.containers.map (fun c => c.name)
  let retained := container_statuses.filter (fun p => valid_names.contains p.1)
  let existing_names := retained.map (fun p => p.1)
  retained ++
    (spec.containers.filter (fun c => !(existing_names.contains c.name))).map
      (fun c => (c.name, "EMPTY"))

namespace ApiServerState

/-- `mod.rs ApiServerState::add_pod`.  `putOk` is the outcome of the
`store.put_pod` call. -/
def add_pod (putOk : Bool) (spec : PodSpec) (metadata : Metadata)
    (st : SystemState) : OpResult Uuid :=
  match validate_container_list spec.containers with
  | .error e => ⟨.error e, st, []⟩
  | .ok _ =>
    let pod : Pod := { metadata := metadata, spec := spec, status := PodStatus.default }
    if putOk then
      let st1 := { st with
        store := { st.store with pods := putAL st.store.pods pod.metadata.id pod } }
      let st2 := { st1 with cache := st1.cache.add_pod pod.metadata.name pod.metadata.id }
      let st3 := { st2 with
        pod_events := st2.pod_events ++ [{ event_type := .Added, pod := pod }] }
      ⟨.ok pod.metadata.id, st3, [.storeWrite, .cacheWrite, .broadcast]⟩
    else
      ⟨.error (.BackendError "put_pod failed"), st, [.storeWrite]⟩

/-- `mod.rs ApiServerState::delete_pod`.  `getOk` / `delOk` are the
outcomes of `store.get_pod` and `store.delete_pod`. -/
def delete_pod (getOk delOk : Bool) (name : String) (st : SystemState) : OpResult Unit :=
  match st.cache.get_pod_id name with
  | none => ⟨.error (.NotFound "Pod not found"), st, []⟩
  | some id =>
    if getOk then
      match lookupAL st.store.pods id with
      | none => ⟨.error (.NotFound "Pod not found"), st, []⟩
      | some pod =>
        if delOk then
          let st1 := { st with
            store := { st.store with pods := removeAL st.store.pods id } }
          let st2 := { st1 with cache := st1.cache.delete_pod name }
          let st3 := { st2 with
            pod_events := st2.pod_events ++ [{ event_type := .Deleted, pod := pod }] }
          ⟨.ok (), st3, [.storeWrite, .cacheWrite, .broadcast]⟩
        else
          ⟨.error (.BackendError "delete_pod failed"), st, [.storeWrite]⟩
    else
      ⟨.error (.BackendError "get_pod failed"), st, []⟩

/-- `mod.rs ApiServerState::assign_pod`: bind an unassigned pod to an
existing node, bumping `generation`. -/
def assign_pod (getOk putOk : Bool) (name : String) (node_name : String)
    (st : SystemState) : OpResult Unit :=
  if ¬ st.cache.node_name_exists node_name then
    ⟨.error (.InvalidReference ("No node exists with name=" ++ node_name)), st, []⟩
  else
    match st.cache.get_pod_id name with
    | none => ⟨.error (.NotFound ("No pod exists with name=" ++ name)), st, []⟩
    | some pod_id =>
      if getOk then
        match lookupAL st.store.pods pod_id with
        | none => ⟨.error (.NotFound "Pod not found in store"), st, []⟩
        | some pod =>
          if pod.spec.node_name ≠ "" then
            ⟨.error (.Conflict ("Pod (" ++ name ++ ") is already assigned to a node")), st, []⟩
          else
            let pod1 : Pod := { pod with
              spec := { pod.spec with node_name := node_name },
              metadata := { pod.metadata with generation := pod.metadata.generation + 1 } }
            if putOk then
              let st1 := { st with
                store := { st.store with pods := putAL st.store.pods pod1.metadata.id pod1 } }
              let st2 := { st1 with cache := st1.cache.assign_pod name pod_id node_name }
              let st3 := { st2 with
                pod_events := st2.pod_events ++ [{ event_type := .Modified, pod := pod1 }] }
              ⟨.ok (), st3, [.storeWrite, .cacheWrite, .broadcast]⟩
            else
              ⟨.error (.BackendError "put_pod failed"), st, [.storeWrite]⟩
      else
        ⟨.error (.BackendError "get_pod failed"), st, []⟩

/-- `mod.rs ApiServerState::update_pod_status`: overwrite the status block
(with cleaned container statuses and `last_update = now`); `generation`
and the spec are untouched.  No cache mutation happens on this path. -/
def update_pod_status (getOk putOk : Bool) (now : Timestamp) (id : Uuid)
    (status : PodStatus) (st : SystemState) : OpResult Unit :=
  if getOk then
    match lookupAL st.store.pods id with
    | none => ⟨.error (.NotFound "Pod not found in store"), st, []⟩
    | some pod =>
      let cleaned := validate_container_statuses pod.spec status.container_status
      let pod1 : Pod := { pod with
        status := { status with container_status := cleaned, last_update := some now } }
      if putOk then
        let st1 := { st with
          store := { st.store with pods := putAL st.store.pods id pod1 } }
        let st2 := { st1 with
          pod_events := st1.pod_events ++ [{ event_type := .Modified, pod := pod1 }] }
        ⟨.ok (), st2, [.storeWrite, .broadcast]⟩
      else
        ⟨.error (.BackendError "put_pod failed"), st, [.storeWrite]⟩
  else
    ⟨.error (.BackendError "get_pod failed"), st, []⟩

/-- `mod.rs ApiServerState::add_node`. -/
def add_node (putOk : Bool) (node : Node) (st : SystemState) : OpResult Unit :=
  if putOk then
    let st1 := { st with
      store := { st.store with nodes := putAL st.store.nodes node.name node } }
    let st2 := { st1 with cache := st1.cache.add_node node.name node.addr }
    let st3 := { st2 with
      node_events := st2.node_events ++ [{ event_type := .Added, node := node }] }
    ⟨.ok (), st3, [.storeWrite, .cacheWrite, .broadcast]⟩
  else
    ⟨.error (.BackendError "put_node failed"), st, [.storeWrite]⟩

/-- `mod.rs ApiServerState::add_replicaset`. -/
def add_replicaset (putOk : Bool) (spec : ReplicaSetSpec) (metadata : Metadata)
    (st : SystemState) : OpResult Uuid :=
  match validate_container_list spec.template.spec.containers with
  | .error e => ⟨.error e, st, []⟩
  | .ok _ =>
    let rs : ReplicaSet :=
      { metadata := metadata, spec := spec, status := ReplicaSetStatus.default }
    if putOk then
      let st1 := { st with
        store := { st.store with
          replicasets := putAL st.store.replicasets rs.metadata.id rs } }
      let st2 := { st1 with cache := st1.cache.add_replicaset rs.metadata.name }
      let st3 := { st2 with
        replicaset_events := st2.replicaset_events ++
          [{ event_type := .Added, replicaset := rs }] }
      ⟨.ok rs.metadata.id, st3, [.storeWrite, .cacheWrite, .broadcast]⟩
    else
      ⟨.error (.BackendError "put_replicaset failed"), st, [.storeWrite]⟩

/-- `mod.rs ApiServerState::update_node_heartbeat`. -/
def update_node_heartbeat (getOk putOk : Bool) (now : Timestamp) (node_name : String)
    (st : SystemState) : OpResult Unit :=
  if getOk then
    match lookupAL st.store.nodes node_name with
    | none => ⟨.error (.NotFound ("Node " ++ node_name ++ " not found in store")), st, []⟩
    | some node =>
      let node1 := { node with last_heartbeat := now }
      if putOk then
        let st1 := { st with
          store := { st.store with nodes := putAL st.store.nodes node_name node1 } }
        ⟨.ok (), st1, [.storeWrite]⟩
      else
        ⟨.error (.BackendError "put_node failed"), st, [.storeWrite]⟩
  else
    ⟨.error (.BackendError "get_node failed"), st, []⟩

/-- `mod.rs ApiServerState::get_pods`: with a node filter, resolve the
cached bucket through the store (read failures are logged and skipped);
without a filter, list the whole pod keyspace. -/
def get_pods (st : SystemState) (query : Option String) : List Pod :=
  match query with
  | some node_name =>
    match st.cache.get_pod_ids node_name with
    | none => []
    | some ids => ids.filterMap (fun id => lookupAL st.store.pods id)
  | none => st.store.pods.map (fun p => p.2)

end ApiServerState

/-! ## REST endpoints (`src/server/src/endpoints/pods.rs`) -/

namespace Endpoints

/-- `pods.rs update` (PATCH `/pods/{name}`): `NodeName` patches bind via
`assign_pod` (204 on success), `Spec` patches are not implemented (501);
errors map through `StoreError::to_http_response`. -/
def update (getOk putOk : Bool) (pod_name : String) (patch : PodPatch)
    (st : SystemState) : Nat × SystemState :=
  match patch.pod_field with
  | .NodeName =>
    match ApiServerState.assign_pod getOk putOk pod_name patch.value st with
    | ⟨.ok _, st1, _⟩ => (204, st1)
    | ⟨.error e, st1, _⟩ => (e.to_http_response, st1)
  | .Spec => (501, st)

/-- `pods.rs status` (PATCH `/pods/{name}/status`): 404 when the pod name is
unknown, 403 when the submitted `node_name` is not a known node, 401 when
the pod is not in that node's bucket; then the node heartbeat is updated
(failure only logged) and the status is written (200 on success). -/
def status (hbGetOk hbPutOk getOk putOk : Bool) (now : Timestamp)
    (pod_name : String) (upd : PodStatusUpdate) (st : SystemState) :
    Nat × SystemState :=
  match st.cache.get_pod_id pod_name with
  | none => (404, st)
  | some pod_id =>
    if ¬ st.cache.node_name_exists upd.node_name then (403, st)
    else
      match st.cache.get_pod_ids upd.node_name with
      | some set =>
        if pod_id ∈ set then
          let st1 :=
            (ApiServerState.update_node_heartbeat hbGetOk hbPutOk now upd.node_name st).state
          match ApiServerState.update_pod_status getOk putOk now pod_id upd.status st1 with
          | ⟨.ok _, st2, _⟩ => (200, st2)
          | ⟨.error e, st2, _⟩ => (e.to_http_response, st2)
        else (401, st)
      | none => (401, st)

/-- `pods.rs create` (POST `/pods`): fills server-side metadata and calls
`add_pod` (201 on success).  The handler extracts no query parameter: the
request's `CreatePodParams` (`?controller=`) is ignored, as in the source,
and is carried here only so that properties about it can be stated. -/
def create (putOk : Bool) (freshId : Uuid) (now : Timestamp)
    (_reqParams : CreatePodParams) (manifest : PodManifest) (st : SystemState) :
    Nat × SystemState :=
  let metadata := Metadata.from_object freshId now manifest.metadata
  match ApiServerState.add_pod putOk
      { node_name := "", containers := manifest.spec.containers } metadata st with
  | ⟨.ok _, st1, _⟩ => (201, st1)
  | ⟨.error e, st1, _⟩ => (e.to_http_response, st1)

/-- The per-event filter of the watch stream in `pods.rs get`:
`if let Some(name) = node_name { if event.pod.node_name != name continue }`. -/
def watch_filter (node_name : Option String) (e : PodEvent) : Bool :=
  match node_name with
  | some n => e.pod.node_name == n
  | none => true

/-- `pods.rs get` with `?watch=true`: first a synthetic `Added` event per
pod of the initial listing (filtered by `nodeName`), then the live tail of
broadcast events (same filter).  `live` is the sequence of events received
from the broadcast channel after subscription. -/
def get_watch (st : SystemState) (node_name : Option String)
    (live : List PodEvent) : List PodEvent :=
  ((ApiServerState.get_pods st node_name).map
      (fun p => { event_type := .Added, pod := p })).filter (watch_filter node_name)
    ++ live.filter (watch_filter node_name)

end Endpoints

/-! ## Scheduler (`src/server/src/scheduler/scorer.rs`, `filter.rs`,
`src/server/src/controllers/scheduler/flow.rs`, `state.rs`)

`f64` scores are modelled by exact rationals.  The `DashMap` of nodes is
modelled by the list `nodes` of node names in iteration order; quantifying
over that order models the unspecified hash-map iteration order. -/

/-- `state.rs SimResources`: synthetic `(cpu, mem)` vector. -/
structure SimResources where
  cpu : Nat
  mem : Nat
deriving DecidableEq, Repr

/-- Shadow state of the scheduler (`state.rs SchedulerState`), restricted
to the fields the filter/score pipeline reads.  `nodes` lists the node
names in the map's iteration order. -/
structure SchedulerState where
  nodes : List String
  pod_resources : List (Uuid × SimResources)
  node_resources : List (String × SimResources)
  pod_map : List (String × List Uuid)
deriving DecidableEq, Repr

namespace Scheduler

/-- `scorer.rs Scorer::score` (variant `Basic`): normalize free cpu by
4000 milli-cpu and free mem by 8 GiB; pod count dominates. -/
def score (pod_count : Nat) (free_cpu free_mem : Nat) : ℚ :=
  let cpu_score : ℚ := (free_cpu : ℚ) / 4000
  let mem_score : ℚ := (free_mem : ℚ) / (8 * 1024 * 1024 * 1024)
  let frac : ℚ := (1 / 2 : ℚ) * cpu_score + (1 / 2 : ℚ) * mem_score
  let neg_pods : ℚ := -(pod_count : ℚ)
  neg_pods + frac

/-- `filter.rs FilterOptions::filter` (variant `Basic`): candidates are the
nodes, in iteration order, whose resource vector componentwise covers the
pod's; each enters with placeholder score `0.0`. -/
def filter (st : SchedulerState) (pod : Pod) : List (String × ℚ) :=
  match lookupAL st.pod_resources pod.metadata.id with
  | none => []
  | some pod_res =>
    st.nodes.filterMap (fun node_name =>
      match lookupAL st.node_resources node_name with
      | some node_res =>
        if node_res.cpu ≥ pod_res.cpu ∧ node_res.mem ≥ pod_res.mem then
          some (node_name, (0 : ℚ))
        else none
      | none => none)

/-- The score the loop body of `flow.rs SchedulerFlow::score` computes for
one candidate: free resources by saturating subtraction, pod count from
the shadow bucket (0 when absent); `none` when the node has no resource
entry (such candidates are skipped). -/
def candidateScore (st : SchedulerState) (pod_res : SimResources)
    (node_name : String) : Option ℚ :=
  match lookupAL st.node_resources node_name with
  | none => none
  | some node_res =>
    let free_cpu := node_res.cpu - pod_res.cpu
    let free_mem := node_res.mem - pod_res.mem
    let pod_count := ((lookupAL st.pod_map node_name).getD []).length
    some (score pod_count free_cpu free_mem)

/-- The `match &best` step of the loop body in
`flow.rs SchedulerFlow::score`: replace the best candidate only on a
strictly greater score. -/
def updateBest (node_name : String) (s : ℚ) :
    Option (String × ℚ) → Option (String × ℚ)
  | none => some (node_name, s)
  | some (bn, bs) => if s > bs then some (node_name, s) else some (bn, bs)

/-- The `for (node_name, score) in candidates` loop of
`flow.rs SchedulerFlow::score`: keep the best-scoring candidate, replacing
only on a strictly greater score (candidates without a resource entry are
skipped). -/
def scoreLoop (st : SchedulerState) (pod_res : SimResources) :
    List (String × ℚ) → Option (String × ℚ) → Option (String × ℚ)
  | [], best => best
  | (node_name, _) :: rest, best =>
    match candidateScore st pod_res node_name with
    | none => scoreLoop st pod_res rest best
    | some s => scoreLoop st pod_res rest (updateBest node_name s best)

/-- `flow.rs SchedulerFlow::score`: `chosen` after scoring the candidate
list (`none` when there are no candidates or the pod has no simulated
resources). -/
def flow_score (st : SchedulerState) (pod : Pod)
    (candidates : List (String × ℚ)) : Option String :=
  if candidates.isEmpty then none
  else
    match lookupAL st.pod_resources pod.metadata.id with
    | none => none
    | some pod_res => (scoreLoop st pod_res candidates none).map (fun b => b.1)

/-- The filter/score pipeline of `flow.rs SchedulerFlow::execute`
(the bind step only reports the outcome and is not modelled). -/
def schedule (st : SchedulerState) (pod : Pod) : Option String :=
  flow_score st pod (filter st pod)

end Scheduler

/-! ## Replica-set controller (`src/server/src/controllers/replicaset/mod.rs`,
`src/shared/src/models/replicaset.rs`) -/

/-- `replicaset.rs impl From<ReplicaSet> for PodManifest`: fresh name
`"{rs.name}-{first 4 chars of a fresh uuid}"`, a controller owner
reference to the replica set, and the template's containers verbatim.
`uuidStr` is the fresh random uuid string. -/
def PodManifest.from_replicaset (rs : ReplicaSet) (uuidStr : String) : PodManifest :=
  let short := String.mk (uuidStr.data.take 4)
  { metadata :=
      { name := rs.metadata.name ++ "-" ++ short,
        owner_reference := some
          { id := rs.metadata.id, name := rs.metadata.name,
            kind := .ReplicaSet, controller := true },
        labels := [] },
    spec := { containers := rs.spec.template.spec.containers } }

/-- One outbound pod-creation request of the controller:
`POST {pods_uri}?controller=true` with a manifest body. -/
structure PodCreateRequest where
  controller : Bool
  manifest : PodManifest
deriving DecidableEq, Repr

namespace RSController

/-- `mod.rs RSController::reconciliate_task`: when `spec.replicas` exceeds
`status.ready_replicas`, POST one manifest per missing replica to
`/pods?controller=true`.  `randoms` supplies the fresh uuid string of each
iteration; `responses` gives each POST's success, which the loop only
logs — it never stops early and never issues a rollback. -/
def reconciliate_task (rs_state : List (Uuid × ReplicaSet)) (rs_id : Uuid)
    (randoms : List String) (responses : List Bool) : List PodCreateRequest :=
  match lookupAL rs_state rs_id with
  | none => []
  | some rs =>
    if rs.spec.replicas ≤ rs.status.ready_replicas then []
    else
      (List.range (rs.spec.replicas - rs.status.ready_replicas)).map
        (fun i =>
          let _ := responses.getD i true
          { controller := true,
            manifest := PodManifest.from_replicaset rs (randoms.getD i "") })

end RSController

/-! ## Node agent (`src/node/src/core/worker.rs`, `src/node/src/state.rs`) -/

/-- `bollard ContainerStateStatusEnum` (the variants the agent reads). -/
inductive ContainerStateStatusEnum where
  | EMPTY
  | CREATED
  | RUNNING
  | PAUSED
  | RESTARTING
  | REMOVING
  | EXITED
  | DEAD
deriving DecidableEq, Repr

/-- `state.rs ContainerRuntime`. -/
structure ContainerRuntime where
  id : String
  spec_name : String
  name : String
  status : ContainerStateStatusEnum
deriving DecidableEq, Repr

/-- `state.rs PodRuntime`. -/
structure PodRuntime where
  id : Uuid
  name : String
  containers : List (String × ContainerRuntime)
deriving DecidableEq, Repr

/-- `models.rs PodObject`: the node agent's view of a pod. -/
structure PodObject where
  id : Uuid
  node_name : String
  name : String
  pod_status : PodPhase
  last_status_update : Option Timestamp
  container_status : List (String × String)
  containers : List ContainerSpec
deriving DecidableEq, Repr

/-- `state.rs NodeState`: the maps `pods` and `pod_runtimes` (config and
the docker client handle are not data). -/
structure NodeAgentState where
  pods : List (Uuid × PodObject)
  pod_runtimes : List (Uuid × PodRuntime)
deriving DecidableEq, Repr

namespace NodeAgentState

/-- `state.rs NodeState::get_pod`. -/
def get_pod (st : NodeAgentState) (id : Uuid) : Option PodObject :=
  lookupAL st.pods id

/-- `state.rs NodeState::get_pod_runtime`. -/
def get_pod_runtime (st : NodeAgentState) (id : Uuid) : Option PodRuntime :=
  lookupAL st.pod_runtimes id

/-- `state.rs NodeState::put_pod`. -/
def put_pod (st : NodeAgentState) (pod : PodObject) : NodeAgentState :=
  { st with pods := putAL st.pods pod.id pod }

/-- `state.rs NodeState::add_pod_runtime`: reject a duplicate id. -/
def add_pod_runtime (st : NodeAgentState) (pod_runtime : PodRuntime) :
    Except String NodeAgentState :=
  if (lookupAL st.pod_runtimes pod_runtime.id).isSome then
    .error ("PodRuntime with ID '" ++ toString pod_runtime.id ++ "' already exists.")
  else
    .ok { st with pod_runtimes := putAL st.pod_runtimes pod_runtime.id pod_runtime }

/-- `state.rs NodeState::delete_pod_runtime`. -/
def delete_pod_runtime (st : NodeAgentState) (id : Uuid) : NodeAgentState :=
  { st with pod_runtimes := removeAL st.pod_runtimes id }

end NodeAgentState

/-- `worker.rs reconciliate`: start the pod unless its runtime already
exists.  `start_pod` is the container-engine call
(`state.docker_mgr.start_pod`); the second component of the result lists
the pod ids for which the engine's `start_pod` was invoked during the
call. -/
def reconciliate (start_pod : PodObject → Except String PodRuntime)
    (st : NodeAgentState) (id : Uuid) : NodeAgentState × List Uuid :=
  match st.get_pod id with
  | none => (st, [])
  | some pod =>
    match st.get_pod_runtime pod.id with
    | some _ => (st, [])
    | none =>
      match start_pod pod with
      | .error _ => (st, [pod.id])
      | .ok runtime =>
        match st.add_pod_runtime runtime with
        | .error _ => (st, [pod.id])
        | .ok st1 => (st1, [pod.id])

/-! ## Concrete example data (used by witnesses and counterexamples) -/

/-- A registered node `n1`. -/
def exNode : Node :=
  { id := 1, name := "n1", status := .Ready, addr := "10.0.0.1:1000",
    started_at := 0, last_heartbeat := 0 }

/-- Server-side metadata with the given id and name. -/
def exMeta (id : Uuid) (name : String) : Metadata :=
  { id := id, name := name, owner_reference := none, created_at := 0,
    modified_at := 0, generation := 1, labels := [] }

/-- A single container `c`. -/
def exContainer : ContainerSpec :=
  { name := "c", image := "busybox:latest", ports := none, env := none }

/-- An unassigned single-container pod spec. -/
def exPodSpec : PodSpec :=
  { node_name := "", containers := [exContainer] }

/-- A server state holding node `n1` and an unassigned pod `p` (id 7),
built through the state operations themselves. -/
def exSt : SystemState :=
  (ApiServerState.add_pod true exPodSpec (exMeta 7 "p")
    (ApiServerState.add_node true exNode SystemState.empty).state).state

/-- `exSt` after binding pod `p` to node `n1`. -/
def exStBound : SystemState :=
  (ApiServerState.assign_pod true true "p" "n1" exSt).state

/-- A submitted pod status carrying two entries for the same container
name `c`. -/
def exDupStatus : PodStatus :=
  { phase := .Running, container_status := [("c", "A"), ("c", "B")],
    last_update := none, observed_generation := 1 }

/-- The pod stored in `exStBound` (pod `p` bound to `n1`). -/
def exBoundPod : Pod :=
  (lookupAL exStBound.store.pods 7).getD
    { metadata := exMeta 7 "p", spec := exPodSpec, status := PodStatus.default }

/-- A live-tail `Modified` event for the bound pod. -/
def exModEvent : PodEvent :=
  { event_type := .Modified, pod := exBoundPod }

/-- A manifest whose owner reference has `controller = true` (the shape the
replica-set controller posts). -/
def exControllerManifest : PodManifest :=
  { metadata :=
      { name := "rs1-ab12",
        owner_reference := some
          { id := 3, name := "rs1", kind := .ReplicaSet, controller := true },
        labels := [] },
    spec := { containers := [exContainer] } }

/-- Scheduler state of the seed scenario: nodes `A` (2000 mcpu, 4 GiB) and
`B` (4000 mcpu, 8 GiB), pod 11 with vector (500 mcpu, 128 MiB), no pods
placed. -/
def exSched : SchedulerState :=
  { nodes := ["A", "B"],
    pod_resources := [(11, { cpu := 500, mem := 128 * 1024 * 1024 })],
    node_resources :=
      [("A", { cpu := 2000, mem := 4 * 1024 * 1024 * 1024 }),
       ("B", { cpu := 4000, mem := 8 * 1024 * 1024 * 1024 })],
    pod_map := [] }

/-- The pod with id 11 scheduled in `exSched`. -/
def exSchedPod : Pod :=
  { metadata := exMeta 11 "sp", spec := exPodSpec, status := PodStatus.default }

/-- A pod and two shadow states that differ only in the enumeration order
of the node map; the two nodes tie on every score input. -/
def exTiePod : Pod :=
  { metadata := exMeta 12 "tp", spec := exPodSpec, status := PodStatus.default }

/-- Tied nodes `a` and `b`, enumerated `a` first. -/
def exTieSched1 : SchedulerState :=
  { nodes := ["a", "b"],
    pod_resources := [(12, { cpu := 100, mem := 100 })],
    node_resources := [("a", { cpu := 1000, mem := 1000 }),
                       ("b", { cpu := 1000, mem := 1000 })],
    pod_map := [] }

/-- The same shadow state with the node map enumerated `b` first. -/
def exTieSched2 : SchedulerState :=
  { exTieSched1 with nodes := ["b", "a"] }

/-- A two-node state with strictly distinct candidate scores (`A` has
free cpu, `B` none). -/
def exDistinct1 : SchedulerState :=
  { nodes := ["A", "B"],
    pod_resources := [(13, { cpu := 0, mem := 0 })],
    node_resources := [("A", { cpu := 4000, mem := 0 }), ("B", { cpu := 0, mem := 0 })],
    pod_map := [] }

/-- `exDistinct1` with the node map enumerated in the opposite order. -/
def exDistinct2 : SchedulerState :=
  { exDistinct1 with nodes := ["B", "A"] }

/-- The pod with id 13 scheduled in `exDistinct1`/`exDistinct2`. -/
def exDistinctPod : Pod :=
  { metadata := exMeta 13 "dp", spec := exPodSpec, status := PodStatus.default }

/-- The pod template of the C6 witness replica set. -/
def exTemplate : PodManifest :=
  { metadata := { name := "tpl", owner_reference := none, labels := [] },
    spec := { containers := [exContainer] } }

/-- The replica set used by the C6 witness: 3 desired replicas, 1 ready. -/
def exRS : ReplicaSet :=
  { metadata := exMeta 3 "rs1",
    spec := { replicas := 3, template := exTemplate },
    status := { ready_replicas := 1, observed_generation := 0 } }

/-- The node agent's pod for the C7 witness. -/
def exAgentPod : PodObject :=
  { id := 21, node_name := "n1", name := "p21", pod_status := .Pending,
    last_status_update := none, container_status := [],
    containers := [exContainer] }

/-- Node-agent state holding `exAgentPod` and no runtimes. -/
def exAgentState : NodeAgentState :=
  { pods := [(21, exAgentPod)], pod_runtimes := [] }

/-- A deterministic fake engine: starting a pod yields a runtime with the
pod's id (as the docker manager does). -/
def exStartPod (p : PodObject) : Except String PodRuntime :=
  .ok { id := p.id, name := p.name, containers := [] }

/-! # Theorems -/

/-! ## Association-list lemmas -/

theorem lookupAL_putAL_self {K V : Type} [DecidableEq K]
    (l : List (K × V)) (k : K) (v : V) : lookupAL (putAL l k v) k = some v := by
  induction l with
  | nil => simp [putAL, lookupAL]
  | cons h t ih =>
    by_cases hk : h.1 = k
    · simp [putAL, hk, lookupAL]
    · simp [putAL, hk, lookupAL, ih]

theorem lookupAL_putAL_other {K V : Type} [DecidableEq K]
    (l : List (K × V)) (k k' : K) (v : V) (h : k ≠ k') :
    lookupAL (putAL l k v) k' = lookupAL l k' := by
  induction l with
  | nil => simp [putAL, lookupAL, h]
  | cons hd t ih =>
    by_cases hk : hd.1 = k
    · simp only [putAL, if_pos hk, lookupAL, if_neg h, hk]
    · simp only [putAL, if_neg hk, lookupAL, ih]

theorem except_isOk_ok {ε α : Type} (a : α) :
    (Except.ok a : Except ε α).isOk = true := rfl

theorem except_isOk_error {ε α : Type} (e : ε) :
    (Except.error e : Except ε α).isOk = false := rfl

/-! ## C1: store write first, cache and broadcast only on success -/

/-- C1. For every state-mutating API-server operation (`add_pod`,
`assign_pod`, `delete_pod`, `add_node`, `add_replicaset`): when the store
write fails the whole system state (in particular the cache and every
event channel) is left unchanged and the trace holds no cache mutation and
no broadcast; when the operation succeeds its side effects are exactly the
store write, then the cache update, then the broadcast, in that order. -/
theorem C1_store_then_cache_then_broadcast :
    (∀ st spec md,
      (ApiServerState.add_pod false spec md st).state = st ∧
      Effect.cacheWrite ∉ (ApiServerState.add_pod false spec md st).trace ∧
      Effect.broadcast ∉ (ApiServerState.add_pod false spec md st).trace ∧
      ((ApiServerState.add_pod true spec md st).result.isOk = true →
        (ApiServerState.add_pod true spec md st).trace =
          [Effect.storeWrite, Effect.cacheWrite, Effect.broadcast])) ∧
    (∀ st getOk name node_name,
      (ApiServerState.assign_pod getOk false name node_name st).state = st ∧
      Effect.cacheWrite ∉ (ApiServerState.assign_pod getOk false name node_name st).trace ∧
      Effect.broadcast ∉ (ApiServerState.assign_pod getOk false name node_name st).trace ∧
      ((ApiServerState.assign_pod true true name node_name st).result.isOk = true →
        (ApiServerState.assign_pod true true name node_name st).trace =
          [Effect.storeWrite, Effect.cacheWrite, Effect.broadcast])) ∧
    (∀ st getOk name,
      (ApiServerState.delete_pod getOk false name st).state = st ∧
      Effect.cacheWrite ∉ (ApiServerState.delete_pod getOk false name st).trace ∧
      Effect.broadcast ∉ (ApiServerState.delete_pod getOk false name st).trace ∧
      ((ApiServerState.delete_pod true true name st).result.isOk = true →
        (ApiServerState.delete_pod true true name st).trace =
          [Effect.storeWrite, Effect.cacheWrite, Effect.broadcast])) ∧
    (∀ st node,
      (ApiServerState.add_node false node st).state = st ∧
      Effect.cacheWrite ∉ (ApiServerState.add_node false node st).trace ∧
      Effect.broadcast ∉ (ApiServerState.add_node false node st).trace ∧
      ((ApiServerState.add_node true node st).result.isOk = true →
        (ApiServerState.add_node true node st).trace =
          [Effect.storeWrite, Effect.cacheWrite, Effect.broadcast])) ∧
    (∀ st spec md,
      (ApiServerState.add_replicaset false spec md st).state = st ∧
      Effect.cacheWrite ∉ (ApiServerState.add_replicaset false spec md st).trace ∧
      Effect.broadcast ∉ (ApiServerState.add_replicaset false spec md st).trace ∧
      ((ApiServerState.add_replicaset true spec md st).result.isOk = true →
        (ApiServerState.add_replicaset true spec md st).trace =
          [Effect.storeWrite, Effect.cacheWrite, Effect.broadcast])) := by
  refine ⟨?_, ?_, ?_, ?_, ?_⟩
  · intro st spec md
    cases h : validate_container_list spec.containers with
    | error e =>
      refine ⟨by simp [ApiServerState.add_pod, h], by simp [ApiServerState.add_pod, h],
        by simp [ApiServerState.add_pod, h], ?_⟩
      intro hok
      simp [ApiServerState.add_pod, h, except_isOk_error] at hok
    | ok u =>
      exact ⟨by simp [ApiServerState.add_pod, h], by simp [ApiServerState.add_pod, h],
        by simp [ApiServerState.add_pod, h], fun _ => by simp [ApiServerState.add_pod, h]⟩
  · intro st getOk name node_name
    by_cases hex : st.cache.node_name_exists node_name
    · cases hid : st.cache.get_pod_id name with
      | none =>
        refine ⟨by simp [ApiServerState.assign_pod, hex, hid],
          by simp [ApiServerState.assign_pod, hex, hid],
          by simp [ApiServerState.assign_pod, hex, hid], ?_⟩
        intro hok
        simp [ApiServerState.assign_pod, hex, hid, except_isOk_error] at hok
      | some pod_id =>
        cases hpod : lookupAL st.store.pods pod_id with
        | none =>
          refine ⟨?_, ?_, ?_, ?_⟩ <;>
            cases getOk <;>
              simp [ApiServerState.assign_pod, hex, hid, hpod, except_isOk_error]
        | some pod =>
          by_cases hassigned : pod.spec.node_name = ""
          · refine ⟨?_, ?_, ?_, ?_⟩ <;>
              cases getOk <;>
                simp [ApiServerState.assign_pod, hex, hid, hpod, hassigned,
                  except_isOk_error]
          · refine ⟨?_, ?_, ?_, ?_⟩ <;>
              cases getOk <;>
                simp [ApiServerState.assign_pod, hex, hid, hpod, hassigned,
                  except_isOk_error]
    · refine ⟨by simp [ApiServerState.assign_pod, hex],
        by simp [ApiServerState.assign_pod, hex],
        by simp [ApiServerState.assign_pod, hex], ?_⟩
      intro hok
      simp [ApiServerState.assign_pod, hex, except_isOk_error] at hok
  · intro st getOk name
    cases hid : st.cache.get_pod_id name with
    | none =>
      refine ⟨by simp [ApiServerState.delete_pod, hid],
        by simp [ApiServerState.delete_pod, hid],
        by simp [ApiServerState.delete_pod, hid], ?_⟩
      intro hok
      simp [ApiServerState.delete_pod, hid, except_isOk_error] at hok
    | some pod_id =>
      cases hpod : lookupAL st.store.pods pod_id with
      | none =>
        refine ⟨?_, ?_, ?_, ?_⟩ <;>
          cases getOk <;>
            simp [ApiServerState.delete_pod, hid, hpod, except_isOk_error]
      | some pod =>
        refine ⟨?_, ?_, ?_, ?_⟩ <;>
          cases getOk <;>
            simp [ApiServerState.delete_pod, hid, hpod, except_isOk_error]
  · intro st node
    exact ⟨by simp [ApiServerState.add_node], by simp [ApiServerState.add_node],
      by simp [ApiServerState.add_node], fun _ => by simp [ApiServerState.add_node]⟩
  · intro st spec md
    cases h : validate_container_list spec.template.spec.containers with
    | error e =>
      refine ⟨by simp [ApiServerState.add_replicaset, h],
        by simp [ApiServerState.add_replicaset, h],
        by simp [ApiServerState.add_replicaset, h], ?_⟩
      intro hok
      simp [ApiServerState.add_replicaset, h, except_isOk_error] at hok
    | ok u =>
      exact ⟨by simp [ApiServerState.add_replicaset, h],
        by simp [ApiServerState.add_replicaset, h],
        by simp [ApiServerState.add_replicaset, h],
        fun _ => by simp [ApiServerState.add_replicaset, h]⟩

/-- Witness for C1 at concrete inputs: a successful `add_pod` on `exSt`
shows the store/cache/broadcast order, and an `assign_pod` whose store
write fails leaves `exSt` unchanged. -/
theorem C1_witness :
    (ApiServerState.add_pod true exPodSpec (exMeta 8 "q") exSt).trace =
      [Effect.storeWrite, Effect.cacheWrite, Effect.broadcast] ∧
    (ApiServerState.assign_pod true false "p" "n1" exSt).state = exSt ∧
    (ApiServerState.assign_pod true true "p" "n1" exSt).trace =
      [Effect.storeWrite, Effect.cacheWrite, Effect.broadcast] :=
  ⟨(C1_store_then_cache_then_broadcast.1 exSt exPodSpec (exMeta 8 "q")).2.2.2 (by decide),
   (C1_store_then_cache_then_broadcast.2.1 exSt true "p" "n1").1,
   (C1_store_then_cache_then_broadcast.2.1 exSt true "p" "n1").2.2.2 (by decide)⟩

/-! ## C2: generation bumps exactly on spec changes -/

/-- C2. A successful bind (`assign_pod`, the PATCH `NodeName` path)
increments the stored pod's `metadata.generation` by exactly one and
changes the spec (the node name goes from empty to the non-empty target);
a successful status update (`update_pod_status`) leaves both
`metadata.generation` and the spec unchanged.  The hypotheses record that
the cached id resolves to the stored pod (as maintained by `add_pod`) and
that node names are non-empty (enforced at node registration). -/
theorem C2_generation_bump_iff_spec_change :
    (∀ getOk putOk st name node_name pod_id pod,
      st.cache.get_pod_id name = some pod_id →
      lookupAL st.store.pods pod_id = some pod →
      pod.metadata.id = pod_id →
      node_name ≠ "" →
      (ApiServerState.assign_pod getOk putOk name node_name st).result.isOk = true →
      ∃ pod1,
        lookupAL
            (ApiServerState.assign_pod getOk putOk name node_name st).state.store.pods
            pod_id = some pod1 ∧
        pod1.metadata.generation = pod.metadata.generation + 1 ∧
        pod1.spec ≠ pod.spec) ∧
    (∀ getOk putOk now st id status pod,
      lookupAL st.store.pods id = some pod →
      (ApiServerState.update_pod_status getOk putOk now id status st).result.isOk = true →
      ∃ pod1,
        lookupAL
            (ApiServerState.update_pod_status getOk putOk now id status st).state.store.pods
            id = some pod1 ∧
        pod1.metadata.generation = pod.metadata.generation ∧
        pod1.spec = pod.spec) := by
  refine ⟨?_, ?_⟩
  · intro getOk putOk st name node_name pod_id pod hcid hstore hid hnode hok
    subst hid
    by_cases hex : st.cache.node_name_exists node_name
    · cases getOk with
      | false =>
        simp [ApiServerState.assign_pod, hex, hcid, except_isOk_error] at hok
      | true =>
        by_cases hassigned : pod.spec.node_name = ""
        · cases putOk with
          | false =>
            simp [ApiServerState.assign_pod, hex, hcid, hstore, hassigned,
              except_isOk_error] at hok
          | true =>
            have heq :
                (ApiServerState.assign_pod true true name node_name st).state.store.pods =
                  putAL st.store.pods pod.metadata.id
                    { pod with
                      spec := { pod.spec with node_name := node_name },
                      metadata :=
                        { pod.metadata with generation := pod.metadata.generation + 1 } } := by
              simp [ApiServerState.assign_pod, hex, hcid, hstore, hassigned]
            refine ⟨{ pod with
                spec := { pod.spec with node_name := node_name },
                metadata :=
                  { pod.metadata with generation := pod.metadata.generation + 1 } },
              ?_, rfl, ?_⟩
            · rw [heq]
              exact lookupAL_putAL_self st.store.pods pod.metadata.id _
            · intro hs
              apply hnode
              have h2 := congrArg PodSpec.node_name hs
              simp only at h2
              exact h2.trans hassigned
        · simp [ApiServerState.assign_pod, hex, hcid, hstore, hassigned,
            except_isOk_error] at hok
    · simp [ApiServerState.assign_pod, hex, except_isOk_error] at hok
  · intro getOk putOk now st id status pod hstore hok
    cases getOk with
    | false =>
      simp [ApiServerState.update_pod_status, except_isOk_error] at hok
    | true =>
      cases putOk with
      | false =>
        simp [ApiServerState.update_pod_status, hstore, except_isOk_error] at hok
      | true =>
        have heq :
            (ApiServerState.update_pod_status true true now id status st).state.store.pods =
              putAL st.store.pods id
                { pod with
                  status := { status with
                    container_status :=
                      validate_container_statuses pod.spec status.container_status,
                    last_update := some now } } := by
          simp [ApiServerState.update_pod_status, hstore]
        refine ⟨{ pod with
            status := { status with
              container_status :=
                validate_container_statuses pod.spec status.container_status,
              last_update := some now } }, ?_, rfl, rfl⟩
        rw [heq]
        exact lookupAL_putAL_self st.store.pods id _

/-- Witness for C2 at concrete inputs: binding pod `p` of `exSt` to `n1`
bumps its generation by one and changes the spec; a status update on the
bound state leaves generation and spec unchanged. -/
theorem C2_witness :
    (∃ pod1,
      lookupAL (ApiServerState.assign_pod true true "p" "n1" exSt).state.store.pods 7 =
        some pod1 ∧
      pod1.metadata.generation = (exMeta 7 "p").generation + 1 ∧
      pod1.spec ≠ exPodSpec) ∧
    (∃ pod1,
      lookupAL
          (ApiServerState.update_pod_status true true 5 7 PodStatus.default
            exStBound).state.store.pods 7 = some pod1 ∧
      pod1.metadata.generation =
        ((lookupAL exStBound.store.pods 7).getD
          { metadata := exMeta 7 "p", spec := exPodSpec,
            status := PodStatus.default }).metadata.generation ∧
      pod1.spec =
        ((lookupAL exStBound.store.pods 7).getD
          { metadata := exMeta 7 "p", spec := exPodSpec,
            status := PodStatus.default }).spec) := by
  constructor
  · have h := C2_generation_bump_iff_spec_change.1 true true exSt "p" "n1" 7
      { metadata := exMeta 7 "p", spec := exPodSpec, status := PodStatus.default }
      (by decide) (by decide) (by decide) (by decide) (by decide)
    exact h
  · have h := C2_generation_bump_iff_spec_change.2 true true 5 exStBound 7
      PodStatus.default
      ((lookupAL exStBound.store.pods 7).getD
        { metadata := exMeta 7 "p", spec := exPodSpec, status := PodStatus.default })
      (by decide) (by decide)
    exact h

/-! ## C10: container-status normalization on status updates -/

/-- Helper: the store content written by a successful status update. -/
theorem update_pod_status_stores (now : Timestamp) (id : Uuid) (status : PodStatus)
    (st : SystemState) (pod : Pod) (hstore : lookupAL st.store.pods id = some pod) :
    (ApiServerState.update_pod_status true true now id status st).state.store.pods =
      putAL st.store.pods id
        { pod with
          status := { status with
            container_status :=
              validate_container_statuses pod.spec status.container_status,
            last_update := some now } } := by
  simp [ApiServerState.update_pod_status, hstore]

/-- Mapping first components commutes with filtering on them. -/
theorem map_fst_filter {β : Type} (l : List (String × β)) (p : String → Bool) :
    (l.filter (fun x => p x.1)).map (fun x => x.1) = (l.map (fun x => x.1)).filter p := by
  induction l with
  | nil => rfl
  | cons h t ih => by_cases hp : p h.1 <;> simp [List.filter_cons, hp, ih]

/-- Mapping container names commutes with filtering on them. -/
theorem map_name_filter (l : List ContainerSpec) (p : String → Bool) :
    (l.filter (fun c => p c.name)).map (fun c => c.name) =
      (l.map (fun c => c.name)).filter p := by
  induction l with
  | nil => rfl
  | cons h t ih => by_cases hp : p h.name <;> simp [List.filter_cons, hp, ih]

/-- First components of the `(name, "EMPTY")` fill entries. -/
theorem map_fst_map_pair (l : List ContainerSpec) (b : String) :
    ((l.map (fun c => (c.name, b))).map (fun p => p.1)) = l.map (fun c => c.name) := by
  simp [List.map_map]

/-- The names of `validate_container_statuses`: submitted names filtered to
spec names, then spec names missing from the retained entries. -/
theorem validate_container_statuses_names (spec : PodSpec)
    (submitted : List (String × String)) :
    (validate_container_statuses spec submitted).map (fun p => p.1) =
      (submitted.map (fun p => p.1)).filter
          (fun n => (spec.containers.map (fun c => c.name)).contains n) ++
        (spec.containers.map (fun c => c.name)).filter
          (fun n => !(((submitted.filter (fun x =>
              (spec.containers.map (fun c => c.name)).contains x.1)).map
            (fun p => p.1)).contains n)) := by
  simp only [validate_container_statuses, List.map_append]
  congr 1
  · exact map_fst_filter submitted _
  · rw [map_fst_map_pair]
    exact map_name_filter spec.containers
      (fun n => !(((submitted.filter (fun x =>
          (spec.containers.map (fun c => c.name)).contains x.1)).map
        (fun p => p.1)).contains n))

/-- C10 counterexample: pod `p` has the single spec container `c`, yet an
accepted status update submitting two entries named `c` stores both of
them, so the stored `container_status` does not contain exactly one entry
per spec container name. -/
theorem C10_counterexample :
    (ApiServerState.update_pod_status true true 9 7 exDupStatus exStBound).result.isOk
      = true ∧
    ((lookupAL
        (ApiServerState.update_pod_status true true 9 7 exDupStatus
          exStBound).state.store.pods 7).map
      (fun p => p.status.container_status)) = some [("c", "A"), ("c", "B")] ∧
    ((lookupAL exStBound.store.pods 7).map
      (fun p => p.spec.containers.map (fun c => c.name))) = some ["c"] ∧
    ¬ (List.count "c" ([("c", "A"), ("c", "B")].map (fun p => p.1)) = 1) := by
  refine ⟨by decide, by decide, by decide, by decide⟩

/-- C10 (amended).  After an accepted status update the stored pod's
`container_status` is exactly `validate_container_statuses` of the
submitted list; and provided the submitted list carries at most one entry
per name (and spec container names are unique, invariant I3), the result
holds exactly one entry per spec container name: non-spec entries are
dropped, kept entries come from the submission, and missing spec
containers are filled with `"EMPTY"`. -/
theorem C10_status_update_unique_container_names :
    (∀ getOk putOk now id status st pod,
      lookupAL st.store.pods id = some pod →
      (ApiServerState.update_pod_status getOk putOk now id status st).result.isOk = true →
      ∃ pod1,
        lookupAL
            (ApiServerState.update_pod_status getOk putOk now id status st).state.store.pods
            id = some pod1 ∧
        pod1.status.container_status =
          validate_container_statuses pod.spec status.container_status) ∧
    (∀ spec submitted,
      (spec.containers.map (fun c => c.name)).Nodup →
      (submitted.map (fun p => p.1)).Nodup →
      ((validate_container_statuses spec submitted).map (fun p => p.1)).Nodup ∧
      (∀ n, n ∈ (validate_container_statuses spec submitted).map (fun p => p.1) ↔
        n ∈ spec.containers.map (fun c => c.name)) ∧
      (∀ p ∈ validate_container_statuses spec submitted,
        p ∈ submitted ∨ p.2 = "EMPTY")) := by
  constructor
  · intro getOk putOk now id status st pod hstore hok
    cases getOk with
    | false => simp [ApiServerState.update_pod_status, except_isOk_error] at hok
    | true =>
      cases putOk with
      | false =>
        simp [ApiServerState.update_pod_status, hstore, except_isOk_error] at hok
      | true =>
        refine ⟨{ pod with
            status := { status with
              container_status :=
                validate_container_statuses pod.spec status.container_status,
              last_update := some now } }, ?_, rfl⟩
        rw [update_pod_status_stores now id status st pod hstore]
        exact lookupAL_putAL_self st.store.pods id _
  · intro spec submitted hspec hsub
    have hnames := validate_container_statuses_names spec submitted
    refine ⟨?_, ?_, ?_⟩
    · rw [hnames]
      apply List.Nodup.append
      · exact List.Nodup.filter _ hsub
      · exact List.Nodup.filter _ hspec
      · intro n hn1 hn2
        simp only [List.mem_filter] at hn1 hn2
        have hmem : n ∈ (submitted.filter (fun x =>
            (spec.containers.map (fun c => c.name)).contains x.1)).map
            (fun p => p.1) := by
          rw [map_fst_filter]
          exact List.mem_filter.mpr ⟨hn1.1, hn1.2⟩
        have hnot := hn2.2
        have hcon : ((submitted.filter (fun x =>
            (spec.containers.map (fun c => c.name)).contains x.1)).map
            (fun p => p.1)).contains n = true := by simpa using hmem
        rw [hcon] at hnot
        simp at hnot
    · intro n
      rw [hnames]
      simp only [List.mem_append, List.mem_filter]
      constructor
      · rintro (⟨hsubmem, hcont⟩ | ⟨hnamemem, _⟩)
        · simpa using hcont
        · exact hnamemem
      · intro hn
        by_cases hex : n ∈ (submitted.filter (fun x =>
            (spec.containers.map (fun c => c.name)).contains x.1)).map
            (fun p => p.1)
        · left
          rw [map_fst_filter] at hex
          exact List.mem_filter.mp hex
        · right
          refine ⟨hn, ?_⟩
          simpa using hex
    · intro p hp
      simp only [validate_container_statuses, List.mem_append, List.mem_filter,
        List.mem_map] at hp
      rcases hp with ⟨hmem, _⟩ | ⟨c, _, hcp⟩
      · exact Or.inl hmem
      · right
        rw [← hcp]

/-- Witness for C10 at concrete inputs: the status update on `exStBound`
stores the normalized list, and for spec container names `["c"]` with the
duplicate-free submission `[("c","A"), ("x","B")]` the result has unique
names and keeps exactly the spec names. -/
theorem C10_witness :
    (∃ pod1,
      lookupAL
          (ApiServerState.update_pod_status true true 9 7 exDupStatus
            exStBound).state.store.pods 7 = some pod1 ∧
      pod1.status.container_status =
        validate_container_statuses
          ((lookupAL exStBound.store.pods 7).getD
            { metadata := exMeta 7 "p", spec := exPodSpec,
              status := PodStatus.default }).spec
          exDupStatus.container_status) ∧
    ((validate_container_statuses exPodSpec [("c", "A"), ("x", "B")]).map
      (fun p => p.1)).Nodup ∧
    ("c" ∈ (validate_container_statuses exPodSpec [("c", "A"), ("x", "B")]).map
      (fun p => p.1) ↔ "c" ∈ exPodSpec.containers.map (fun c => c.name)) :=
  ⟨C10_status_update_unique_container_names.1 true true 9 7 exDupStatus exStBound
      ((lookupAL exStBound.store.pods 7).getD
        { metadata := exMeta 7 "p", spec := exPodSpec, status := PodStatus.default })
      (by decide) (by decide),
   (C10_status_update_unique_container_names.2 exPodSpec [("c", "A"), ("x", "B")]
      (by decide) (by decide)).1,
   (C10_status_update_unique_container_names.2 exPodSpec [("c", "A"), ("x", "B")]
      (by decide) (by decide)).2.1 "c"⟩

/-! ## C9: responses to requests naming an unknown node -/

/-- C9 counterexample: the status-update endpoint answers 403 Forbidden,
not 422, when the submitted `node_name` names no known node (pod `p`
exists in `exSt`, node `ghost` does not). -/
theorem C9_counterexample :
    (Endpoints.status true true true true 0 "p"
      { node_name := "ghost", status := PodStatus.default } exSt).1 = 403 ∧
    ¬ ((Endpoints.status true true true true 0 "p"
      { node_name := "ghost", status := PodStatus.default } exSt).1 = 422) ∧
    exSt.cache.node_name_exists "ghost" = false := by
  refine ⟨by decide, by decide, by decide⟩

/-- C9 (amended).  Binding a pod to a non-existent node (PATCH
`/pods/{name}` with field `NodeName`) answers 422 Unprocessable Entity
(the `InvalidReference` mapping), but a pod status update naming an
unknown `node_name` answers 403 Forbidden from the endpoint's own cache
check, not 422. -/
theorem C9_unknown_node_responses :
    (∀ getOk putOk st name node_name,
      st.cache.node_name_exists node_name = false →
      (Endpoints.update getOk putOk name
        { pod_field := .NodeName, value := node_name } st).1 = 422) ∧
    (∀ hbGetOk hbPutOk getOk putOk now st pod_name upd pod_id,
      st.cache.get_pod_id pod_name = some pod_id →
      st.cache.node_name_exists upd.node_name = false →
      (Endpoints.status hbGetOk hbPutOk getOk putOk now pod_name upd st).1 = 403) ∧
    (∀ msg, (StoreError.InvalidReference msg).to_http_response = 422) := by
  refine ⟨?_, ?_, fun msg => rfl⟩
  · intro getOk putOk st name node_name hex
    simp [Endpoints.update, ApiServerState.assign_pod, hex, StoreError.to_http_response]
  · intro hbGetOk hbPutOk getOk putOk now st pod_name upd pod_id hid hex
    simp [Endpoints.status, hid, hex]

/-- Witness for C9 at concrete inputs: binding pod `p` of `exSt` to the
unknown node `ghost` answers 422; the status update naming `ghost`
answers 403. -/
theorem C9_witness :
    (Endpoints.update true true "p"
      { pod_field := .NodeName, value := "ghost" } exSt).1 = 422 ∧
    (Endpoints.status true true true true 0 "p"
      { node_name := "ghost", status := PodStatus.default } exSt).1 = 403 :=
  ⟨C9_unknown_node_responses.1 true true exSt "p" "ghost" (by decide),
   C9_unknown_node_responses.2.1 true true true true 0 exSt "p"
      { node_name := "ghost", status := PodStatus.default } 7 (by decide) (by decide)⟩

/-! ## C8: the controller flag on pod creation is not enforced -/

/-- C8: the create endpoint accepts a user-originated request (no
`controller=true` query flag) whose manifest carries an owner reference
with `controller = true` — it answers 201 Created — and its outcome is
independent of the `controller` query parameter altogether, because the
handler never reads it.  This contradicts invariant I7 of the
specification, which the declared-but-unused `CreatePodParams` type was
evidently meant to implement. -/
theorem C8_user_create_with_controller_ownerref_accepted :
    (Endpoints.create true 9 0 { controller := none } exControllerManifest
      SystemState.empty).1 = 201 ∧
    (Endpoints.create true 9 0 { controller := some false } exControllerManifest
      SystemState.empty).1 = 201 ∧
    (∀ putOk freshId now p1 p2 manifest st,
      Endpoints.create putOk freshId now p1 manifest st =
        Endpoints.create putOk freshId now p2 manifest st) := by
  refine ⟨by decide, by decide, fun _ _ _ _ _ _ _ => rfl⟩

/-! ## C3: watch streams — filter on both phases, backlog before tail -/

/-- C3. Every event emitted on a watch opened with a `nodeName=X` filter
carries a pod whose node name is `X` (the filter applies to the synthetic
backlog and the live tail alike); the stream is the backlog followed by
the filtered live tail, and every backlog event is a synthetic `Added`. -/
theorem C3_watch_filtered_backlog_then_tail :
    (∀ st X live e, e ∈ Endpoints.get_watch st (some X) live →
      e.pod.node_name = X) ∧
    (∀ st q live, Endpoints.get_watch st q live =
      Endpoints.get_watch st q [] ++ live.filter (Endpoints.watch_filter q)) ∧
    (∀ st q e, e ∈ Endpoints.get_watch st q [] → e.event_type = .Added) := by
  refine ⟨?_, ?_, ?_⟩
  · intro st X live e he
    simp only [Endpoints.get_watch, List.mem_append, List.mem_filter,
      List.mem_map] at he
    rcases he with ⟨⟨p, _, hpe⟩, hf⟩ | ⟨_, hf⟩
    · simp only [Endpoints.watch_filter] at hf
      exact beq_iff_eq.mp hf
    · simp only [Endpoints.watch_filter] at hf
      exact beq_iff_eq.mp hf
  · intro st q live
    simp [Endpoints.get_watch]
  · intro st q e he
    simp only [Endpoints.get_watch, List.filter_nil, List.append_nil,
      List.mem_filter, List.mem_map] at he
    obtain ⟨⟨p, _, hpe⟩, _⟩ := he
    rw [← hpe]

/-- Witness for C3 at concrete inputs: on `exStBound` with filter `n1`,
the live `Modified` event for the bound pod carries node name `n1`, and
the stream decomposes as backlog ++ filtered tail. -/
theorem C3_witness :
    exModEvent.pod.node_name = "n1" ∧
    Endpoints.get_watch exStBound (some "n1") [exModEvent] =
      Endpoints.get_watch exStBound (some "n1") [] ++
        [exModEvent].filter (Endpoints.watch_filter (some "n1")) :=
  ⟨C3_watch_filtered_backlog_then_tail.1 exStBound "n1" [exModEvent] exModEvent
      (by decide),
   C3_watch_filtered_backlog_then_tail.2.1 exStBound (some "n1") [exModEvent]⟩

/-! ## Scheduler lemmas -/

theorem scoreLoop_none (st : SchedulerState) (pr : SimResources) :
    ∀ (cands : List (String × ℚ)) (best : Option (String × ℚ)),
    Scheduler.scoreLoop st pr cands best = none →
    best = none ∧ ∀ p ∈ cands, Scheduler.candidateScore st pr p.1 = none := by
  intro cands
  induction cands with
  | nil =>
    intro best h
    exact ⟨h, by simp⟩
  | cons hd rest ih =>
    intro best h
    obtain ⟨name, x⟩ := hd
    simp only [Scheduler.scoreLoop] at h
    cases hcs : Scheduler.candidateScore st pr name with
    | none =>
      simp only [hcs] at h
      obtain ⟨hb, hall⟩ := ih best h
      refine ⟨hb, ?_⟩
      intro p hp
      rcases List.mem_cons.mp hp with rfl | hp'
      · exact hcs
      · exact hall p hp'
    | some s0 =>
      simp only [hcs] at h
      obtain ⟨hb, _⟩ := ih _ h
      cases best with
      | none => simp [Scheduler.updateBest] at hb
      | some b =>
        obtain ⟨bn0, bs0⟩ := b
        by_cases hgt : s0 > bs0 <;>
          simp [Scheduler.updateBest, hgt] at hb

theorem scoreLoop_some (st : SchedulerState) (pr : SimResources) :
    ∀ (cands : List (String × ℚ)) (best : Option (String × ℚ)) (n : String) (s : ℚ),
    (∀ bn bs, best = some (bn, bs) → Scheduler.candidateScore st pr bn = some bs) →
    Scheduler.scoreLoop st pr cands best = some (n, s) →
    Scheduler.candidateScore st pr n = some s ∧
    (n ∈ cands.map (fun p => p.1) ∨ best = some (n, s)) ∧
    (∀ p ∈ cands, ∀ q, Scheduler.candidateScore st pr p.1 = some q → q ≤ s) ∧
    (∀ bn bs, best = some (bn, bs) → bs ≤ s) := by
  intro cands
  induction cands with
  | nil =>
    intro best n s hbest h
    simp only [Scheduler.scoreLoop] at h
    refine ⟨hbest n s h, Or.inr h, by simp, ?_⟩
    intro bn bs hb
    rw [h] at hb
    injection hb with hb'
    have h2 := congrArg Prod.snd hb'
    exact le_of_eq h2.symm
  | cons hd rest ih =>
    intro best n s hbest h
    obtain ⟨name, x⟩ := hd
    simp only [Scheduler.scoreLoop] at h
    cases hcs : Scheduler.candidateScore st pr name with
    | none =>
      simp only [hcs] at h
      obtain ⟨h1, h2, h3, h4⟩ := ih best n s hbest h
      refine ⟨h1, ?_, ?_, h4⟩
      · rcases h2 with hm | hb
        · left
          simp only [List.map_cons, List.mem_cons]
          exact Or.inr hm
        · exact Or.inr hb
      · intro p hp q hq
        rcases List.mem_cons.mp hp with rfl | hp'
        · rw [hcs] at hq
          cases hq
        · exact h3 p hp' q hq
    | some s0 =>
      simp only [hcs] at h
      have hbest' : ∀ bn bs, Scheduler.updateBest name s0 best = some (bn, bs) →
          Scheduler.candidateScore st pr bn = some bs := by
        intro bn bs hb
        cases best with
        | none =>
          simp only [Scheduler.updateBest] at hb
          injection hb with hb'
          injection hb' with e1 e2
          subst e1
          subst e2
          exact hcs
        | some b =>
          obtain ⟨bn0, bs0⟩ := b
          simp only [Scheduler.updateBest] at hb
          by_cases hgt : s0 > bs0
          · rw [if_pos hgt] at hb
            injection hb with hb'
            injection hb' with e1 e2
            subst e1
            subst e2
            exact hcs
          · rw [if_neg hgt] at hb
            injection hb with hb'
            injection hb' with e1 e2
            subst e1
            subst e2
            exact hbest bn0 bs0 rfl
      obtain ⟨h1, h2, h3, h4⟩ := ih (Scheduler.updateBest name s0 best) n s hbest' h
      have hub_ge_s0 : s0 ≤ s := by
        cases best with
        | none => exact h4 name s0 rfl
        | some b =>
          obtain ⟨bn0, bs0⟩ := b
          by_cases hgt : s0 > bs0
          · exact h4 name s0 (by simp [Scheduler.updateBest, if_pos hgt])
          · have hb0 : bs0 ≤ s := h4 bn0 bs0 (by simp [Scheduler.updateBest, if_neg hgt])
            exact (le_of_not_lt hgt).trans hb0
      have hold_ge : ∀ bn bs, best = some (bn, bs) → bs ≤ s := by
        intro bn bs hb
        by_cases hgt : s0 > bs
        · exact (le_of_lt hgt).trans hub_ge_s0
        · refine h4 bn bs ?_
          rw [hb]
          simp [Scheduler.updateBest, if_neg hgt]
      refine ⟨h1, ?_, ?_, hold_ge⟩
      · rcases h2 with hm | hb
        · left
          simp only [List.map_cons, List.mem_cons]
          exact Or.inr hm
        · cases best with
          | none =>
            simp only [Scheduler.updateBest] at hb
            injection hb with hb'
            injection hb' with e1 e2
            left
            simp only [List.map_cons, List.mem_cons]
            exact Or.inl e1.symm
          | some b =>
            obtain ⟨bn0, bs0⟩ := b
            simp only [Scheduler.updateBest] at hb
            by_cases hgt : s0 > bs0
            · rw [if_pos hgt] at hb
              injection hb with hb'
              injection hb' with e1 e2
              left
              simp only [List.map_cons, List.mem_cons]
              exact Or.inl e1.symm
            · rw [if_neg hgt] at hb
              exact Or.inr hb
      · intro p hp q hq
        rcases List.mem_cons.mp hp with rfl | hp'
        · rw [hcs] at hq
          injection hq with e
          subst e
          exact hub_ge_s0
        · exact h3 p hp' q hq

theorem mem_filter_iff (st : SchedulerState) (pod : Pod) (pr : SimResources)
    (hres : lookupAL st.pod_resources pod.metadata.id = some pr) (n : String) (q : ℚ) :
    ((n, q) ∈ Scheduler.filter st pod) ↔
      (n ∈ st.nodes ∧ q = 0 ∧ ∃ nr, lookupAL st.node_resources n = some nr ∧
        pr.cpu ≤ nr.cpu ∧ pr.mem ≤ nr.mem) := by
  simp only [Scheduler.filter, hres, List.mem_filterMap]
  constructor
  · rintro ⟨a, ha, hfa⟩
    cases hnr : lookupAL st.node_resources a with
    | none =>
      simp only [hnr] at hfa
      cases hfa
    | some nr =>
      simp only [hnr] at hfa
      by_cases hc : nr.cpu ≥ pr.cpu ∧ nr.mem ≥ pr.mem
      · rw [if_pos hc] at hfa
        injection hfa with hfa'
        injection hfa' with e1 e2
        exact ⟨e1 ▸ ha, e2.symm, nr, e1 ▸ hnr, hc.1, hc.2⟩
      · rw [if_neg hc] at hfa
        cases hfa
  · rintro ⟨hmem, rfl, nr, hnr, h1, h2⟩
    refine ⟨n, hmem, ?_⟩
    simp only [hnr]
    rw [if_pos ⟨h1, h2⟩]

theorem filter_score_some (st : SchedulerState) (pod : Pod) (pr : SimResources)
    (hres : lookupAL st.pod_resources pod.metadata.id = some pr) :
    ∀ p ∈ Scheduler.filter st pod, ∃ s, Scheduler.candidateScore st pr p.1 = some s := by
  intro p hp
  obtain ⟨n, q⟩ := p
  obtain ⟨_, _, nr, hnr, _, _⟩ := (mem_filter_iff st pod pr hres n q).mp hp
  refine ⟨Scheduler.score (((lookupAL st.pod_map n).getD []).length)
    (nr.cpu - pr.cpu) (nr.mem - pr.mem), ?_⟩
  simp [Scheduler.candidateScore, hnr]

/-! ## C4: the score formula and the argmax property -/

/-- C4.  The scorer computes
`-pod_count + (1/2)(free_cpu/4000) + (1/2)(free_mem/8GiB)` (exact-rational
model of the `f64` arithmetic); for a candidate the free resources are the
node vector minus the pod vector, floored at zero (saturating
subtraction), with the pod count taken from the shadow bucket; and
whenever the pipeline chooses a node, that node is a candidate of maximal
score. -/
theorem C4_score_formula_and_argmax :
    (∀ pod_count free_cpu free_mem : Nat,
      Scheduler.score pod_count free_cpu free_mem =
        -(pod_count : ℚ) + (1 / 2) * ((free_cpu : ℚ) / 4000) +
          (1 / 2) * ((free_mem : ℚ) / (8 * 2 ^ 30))) ∧
    (∀ st pr node_name node_res,
      lookupAL st.node_resources node_name = some node_res →
      Scheduler.candidateScore st pr node_name =
        some (Scheduler.score (((lookupAL st.pod_map node_name).getD []).length)
          (node_res.cpu - pr.cpu) (node_res.mem - pr.mem))) ∧
    (∀ st pod chosen,
      Scheduler.schedule st pod = some chosen →
      ∃ pr, lookupAL st.pod_resources pod.metadata.id = some pr ∧
        (chosen, (0 : ℚ)) ∈ Scheduler.filter st pod ∧
        ∃ s, Scheduler.candidateScore st pr chosen = some s ∧
          ∀ p ∈ Scheduler.filter st pod, ∀ q,
            Scheduler.candidateScore st pr p.1 = some q → q ≤ s) := by
  refine ⟨?_, ?_, ?_⟩
  · intro pc fc fm
    show (-(pc : ℚ) + ((1 / 2 : ℚ) * ((fc : ℚ) / 4000) +
      (1 / 2 : ℚ) * ((fm : ℚ) / (8 * 1024 * 1024 * 1024)))) = _
    norm_num
    ring
  · intro st pr node_name node_res hnr
    simp [Scheduler.candidateScore, hnr]
  · intro st pod chosen h
    simp only [Scheduler.schedule, Scheduler.flow_score] at h
    by_cases hemp : (Scheduler.filter st pod).isEmpty
    · rw [if_pos hemp] at h
      cases h
    · rw [if_neg hemp] at h
      cases hres : lookupAL st.pod_resources pod.metadata.id with
      | none =>
        simp only [hres] at h
        cases h
      | some pr =>
        simp only [hres] at h
        cases hloop : Scheduler.scoreLoop st pr (Scheduler.filter st pod) none with
        | none =>
          rw [hloop] at h
          cases h
        | some b =>
          obtain ⟨n1, s1⟩ := b
          rw [hloop] at h
          simp only [Option.map_some'] at h
          injection h with hn1
          subst hn1
          obtain ⟨h1, h2, h3, _⟩ :=
            scoreLoop_some st pr (Scheduler.filter st pod) none n1 s1
              (by intro bn bs hb; cases hb) hloop
          rcases h2 with hm | hb
          · refine ⟨pr, by simp [hres], ?_, s1, h1, h3⟩
            obtain ⟨p, hp, hpn⟩ := List.mem_map.mp hm
            obtain ⟨pn, pq⟩ := p
            obtain ⟨hmem, hq0, hrest⟩ := (mem_filter_iff st pod pr hres pn pq).mp hp
            have hpn1 : pn = n1 := hpn
            subst hpn1
            subst hq0
            exact hp
          · cases hb

/-- Witness for C4: on the seed scenario the pipeline chooses `B`, and the
argmax and formula conclusions hold there. -/
theorem C4_witness :
    Scheduler.schedule exSched exSchedPod = some "B" ∧
    (∃ pr, lookupAL exSched.pod_resources exSchedPod.metadata.id = some pr ∧
      ("B", (0 : ℚ)) ∈ Scheduler.filter exSched exSchedPod ∧
      ∃ s, Scheduler.candidateScore exSched pr "B" = some s ∧
        ∀ p ∈ Scheduler.filter exSched exSchedPod, ∀ q,
          Scheduler.candidateScore exSched pr p.1 = some q → q ≤ s) ∧
    Scheduler.candidateScore exSched { cpu := 500, mem := 128 * 1024 * 1024 } "A" =
      some (Scheduler.score 0 1500 (4 * 1024 * 1024 * 1024 - 128 * 1024 * 1024)) := by
  have hsched : Scheduler.schedule exSched exSchedPod = some "B" := by
    simp [Scheduler.schedule, Scheduler.flow_score, Scheduler.filter,
      Scheduler.scoreLoop, Scheduler.updateBest, Scheduler.candidateScore,
      Scheduler.score, lookupAL, exSched, exSchedPod, exMeta, exPodSpec]
    norm_num
  refine ⟨hsched, C4_score_formula_and_argmax.2.2 exSched exSchedPod "B" hsched, ?_⟩
  exact C4_score_formula_and_argmax.2.1 exSched
    { cpu := 500, mem := 128 * 1024 * 1024 } "A"
    { cpu := 2000, mem := 4 * 1024 * 1024 * 1024 } (by decide)

/-! ## C5: candidate order — the source does not sort -/

/-- C5 counterexample: the pipeline never sorts the candidate list; on two
executions over the same shadow state (same node set, same resource
vectors, same pod buckets) whose node maps enumerate in different orders,
it chooses different nodes (ties keep the first candidate seen). -/
theorem C5_counterexample :
    Scheduler.schedule exTieSched1 exTiePod = some "a" ∧
    Scheduler.schedule exTieSched2 exTiePod = some "b" ∧
    List.Perm exTieSched1.nodes exTieSched2.nodes ∧
    exTieSched1.pod_resources = exTieSched2.pod_resources ∧
    exTieSched1.node_resources = exTieSched2.node_resources ∧
    exTieSched1.pod_map = exTieSched2.pod_map ∧
    ¬ (Scheduler.schedule exTieSched1 exTiePod =
        Scheduler.schedule exTieSched2 exTiePod) := by
  have h1 : Scheduler.schedule exTieSched1 exTiePod = some "a" := by
    simp [Scheduler.schedule, Scheduler.flow_score, Scheduler.filter,
      Scheduler.scoreLoop, Scheduler.updateBest, Scheduler.candidateScore,
      Scheduler.score, lookupAL, exTieSched1, exTiePod, exMeta, exPodSpec]
  have h2 : Scheduler.schedule exTieSched2 exTiePod = some "b" := by
    simp [Scheduler.schedule, Scheduler.flow_score, Scheduler.filter,
      Scheduler.scoreLoop, Scheduler.updateBest, Scheduler.candidateScore,
      Scheduler.score, lookupAL, exTieSched2, exTieSched1, exTiePod, exMeta,
      exPodSpec]
  refine ⟨h1, h2, List.Perm.swap "b" "a" [], rfl, rfl, rfl, ?_⟩
  rw [h1, h2]
  simp

theorem candidateScore_congr (st1 st2 : SchedulerState) (pr : SimResources)
    (hnr : st1.node_resources = st2.node_resources)
    (hpm : st1.pod_map = st2.pod_map) (n : String) :
    Scheduler.candidateScore st1 pr n = Scheduler.candidateScore st2 pr n := by
  simp only [Scheduler.candidateScore, hnr, hpm]

theorem filter_mem_congr (st1 st2 : SchedulerState) (pod : Pod)
    (hnodes : ∀ n, n ∈ st1.nodes ↔ n ∈ st2.nodes)
    (hpr : st1.pod_resources = st2.pod_resources)
    (hnr : st1.node_resources = st2.node_resources) :
    ∀ p, p ∈ Scheduler.filter st1 pod ↔ p ∈ Scheduler.filter st2 pod := by
  intro p
  obtain ⟨n, q⟩ := p
  cases hres : lookupAL st1.pod_resources pod.metadata.id with
  | none =>
    have hres2 : lookupAL st2.pod_resources pod.metadata.id = none := by
      rw [← hpr]
      exact hres
    simp [Scheduler.filter, hres, hres2]
  | some pr =>
    have hres2 : lookupAL st2.pod_resources pod.metadata.id = some pr := by
      rw [← hpr]
      exact hres
    rw [mem_filter_iff st1 pod pr hres n q, mem_filter_iff st2 pod pr hres2 n q,
      hnr, hnodes n]

/-- C5 (amended).  The source pipeline applies no sort to the candidate
list; its outcome is a pure function of the pod, the shadow state, and the
node map's enumeration order, and it is independent of that order exactly
when no ties arise: for two states equal up to node enumeration order, if
no two nodes have equal candidate scores, the same node is chosen (the
counterexample shows ties break this). -/
theorem C5_no_sort_order_invariance_without_ties
    (st1 st2 : SchedulerState) (pod : Pod)
    (hnodes : ∀ n, n ∈ st1.nodes ↔ n ∈ st2.nodes)
    (hpr : st1.pod_resources = st2.pod_resources)
    (hnr : st1.node_resources = st2.node_resources)
    (hpm : st1.pod_map = st2.pod_map)
    (hinj : ∀ pr m n sm sn,
      lookupAL st1.pod_resources pod.metadata.id = some pr →
      m ∈ st1.nodes → n ∈ st1.nodes →
      Scheduler.candidateScore st1 pr m = some sm →
      Scheduler.candidateScore st1 pr n = some sn → sm = sn → m = n) :
    Scheduler.schedule st1 pod = Scheduler.schedule st2 pod := by
  cases hres : lookupAL st1.pod_resources pod.metadata.id with
  | none =>
    have hres2 : lookupAL st2.pod_resources pod.metadata.id = none := by
      rw [← hpr]
      exact hres
    have hf1 : Scheduler.filter st1 pod = [] := by simp [Scheduler.filter, hres]
    have hf2 : Scheduler.filter st2 pod = [] := by simp [Scheduler.filter, hres2]
    simp [Scheduler.schedule, Scheduler.flow_score, hf1, hf2]
  | some pr =>
    have hres2 : lookupAL st2.pod_resources pod.metadata.id = some pr := by
      rw [← hpr]
      exact hres
    by_cases hemp : (Scheduler.filter st1 pod).isEmpty = true
    · have hf1 : Scheduler.filter st1 pod = [] := by
        rwa [List.isEmpty_iff] at hemp
      have hf2 : Scheduler.filter st2 pod = [] := by
        rw [List.eq_nil_iff_forall_not_mem]
        intro p hp
        have hmem := (filter_mem_congr st1 st2 pod hnodes hpr hnr p).mpr hp
        rw [hf1] at hmem
        exact List.not_mem_nil p hmem
      simp [Scheduler.schedule, Scheduler.flow_score, hf1, hf2]
    · have hemp2 : ¬ (Scheduler.filter st2 pod).isEmpty = true := by
        intro hx
        have hf2 : Scheduler.filter st2 pod = [] := by rwa [List.isEmpty_iff] at hx
        have hne1 : Scheduler.filter st1 pod ≠ [] := by
          intro hz
          rw [List.isEmpty_iff] at hemp
          exact hemp hz
        obtain ⟨p, hp⟩ := List.exists_mem_of_ne_nil _ hne1
        have hmem := (filter_mem_congr st1 st2 pod hnodes hpr hnr p).mp hp
        rw [hf2] at hmem
        exact List.not_mem_nil p hmem
      have heq1 : Scheduler.schedule st1 pod =
          (Scheduler.scoreLoop st1 pr (Scheduler.filter st1 pod) none).map
            (fun b => b.1) := by
        simp [Scheduler.schedule, Scheduler.flow_score, hres, hemp]
      have heq2 : Scheduler.schedule st2 pod =
          (Scheduler.scoreLoop st2 pr (Scheduler.filter st2 pod) none).map
            (fun b => b.1) := by
        simp [Scheduler.schedule, Scheduler.flow_score, hres2, hemp2]
      have hL1 : ∃ n s, Scheduler.scoreLoop st1 pr (Scheduler.filter st1 pod) none =
          some (n, s) := by
        cases hL : Scheduler.scoreLoop st1 pr (Scheduler.filter st1 pod) none with
        | none =>
          obtain ⟨-, hall⟩ := scoreLoop_none st1 pr (Scheduler.filter st1 pod) none hL
          have hne1 : Scheduler.filter st1 pod ≠ [] := by
            intro hz
            rw [List.isEmpty_iff] at hemp
            exact hemp hz
          obtain ⟨p, hp⟩ := List.exists_mem_of_ne_nil _ hne1
          obtain ⟨s, hs⟩ := filter_score_some st1 pod pr hres p hp
          rw [hall p hp] at hs
          cases hs
        | some b =>
          exact ⟨b.1, b.2, by rw [Prod.mk.eta]⟩
      have hL2 : ∃ n s, Scheduler.scoreLoop st2 pr (Scheduler.filter st2 pod) none =
          some (n, s) := by
        cases hL : Scheduler.scoreLoop st2 pr (Scheduler.filter st2 pod) none with
        | none =>
          obtain ⟨-, hall⟩ := scoreLoop_none st2 pr (Scheduler.filter st2 pod) none hL
          have hne2 : Scheduler.filter st2 pod ≠ [] := by
            intro hz
            rw [List.isEmpty_iff] at hemp2
            exact hemp2 hz
          obtain ⟨p, hp⟩ := List.exists_mem_of_ne_nil _ hne2
          obtain ⟨s, hs⟩ := filter_score_some st2 pod pr hres2 p hp
          rw [hall p hp] at hs
          cases hs
        | some b =>
          exact ⟨b.1, b.2, by rw [Prod.mk.eta]⟩
      obtain ⟨n1, s1, hLeq1⟩ := hL1
      obtain ⟨n2, s2, hLeq2⟩ := hL2
      obtain ⟨hc1, hm1, hmax1, -⟩ :=
        scoreLoop_some st1 pr (Scheduler.filter st1 pod) none n1 s1
          (by intro bn bs hb; cases hb) hLeq1
      obtain ⟨hc2, hm2, hmax2, -⟩ :=
        scoreLoop_some st2 pr (Scheduler.filter st2 pod) none n2 s2
          (by intro bn bs hb; cases hb) hLeq2
      rcases hm1 with hm1 | hm1
      swap
      · cases hm1
      rcases hm2 with hm2 | hm2
      swap
      · cases hm2
      obtain ⟨p1, hp1, hp1n⟩ := List.mem_map.mp hm1
      obtain ⟨q1n, q1q⟩ := p1
      have hq1 : q1n = n1 := hp1n
      rw [hq1] at hp1
      obtain ⟨p2, hp2, hp2n⟩ := List.mem_map.mp hm2
      obtain ⟨q2n, q2q⟩ := p2
      have hq2 : q2n = n2 := hp2n
      rw [hq2] at hp2
      have hp2in1 : (n2, q2q) ∈ Scheduler.filter st1 pod :=
        (filter_mem_congr st1 st2 pod hnodes hpr hnr (n2, q2q)).mpr hp2
      have hp1in2 : (n1, q1q) ∈ Scheduler.filter st2 pod :=
        (filter_mem_congr st1 st2 pod hnodes hpr hnr (n1, q1q)).mp hp1
      have hc2' : Scheduler.candidateScore st1 pr n2 = some s2 := by
        rw [candidateScore_congr st1 st2 pr hnr hpm n2]
        exact hc2
      have hle1 : s2 ≤ s1 := hmax1 (n2, q2q) hp2in1 s2 hc2'
      have hc1' : Scheduler.candidateScore st2 pr n1 = some s1 := by
        rw [← candidateScore_congr st1 st2 pr hnr hpm n1]
        exact hc1
      have hle2 : s1 ≤ s2 := hmax2 (n1, q1q) hp1in2 s1 hc1'
      have hseq : s1 = s2 := le_antisymm hle2 hle1
      have hmem1 : n1 ∈ st1.nodes :=
        ((mem_filter_iff st1 pod pr hres n1 q1q).mp hp1).1
      have hmem2 : n2 ∈ st1.nodes :=
        ((mem_filter_iff st1 pod pr hres n2 q2q).mp hp2in1).1
      have hn12 : n1 = n2 :=
        hinj pr n1 n2 s1 s2 hres hmem1 hmem2 hc1 hc2' hseq
      rw [heq1, heq2, hLeq1, hLeq2]
      simp only [Option.map_some']
      exact congrArg some hn12

/-- Witness for C5 (amended) at concrete inputs: with distinct scores the
two enumeration orders agree (both choose `A`). -/
theorem C5_witness :
    Scheduler.schedule exDistinct1 exDistinctPod =
      Scheduler.schedule exDistinct2 exDistinctPod ∧
    Scheduler.schedule exDistinct1 exDistinctPod = some "A" := by
  have hA : Scheduler.candidateScore exDistinct1 { cpu := 0, mem := 0 } "A" =
      some (1 / 2 : ℚ) := by
    simp [Scheduler.candidateScore, Scheduler.score, lookupAL, exDistinct1]
  have hB : Scheduler.candidateScore exDistinct1 { cpu := 0, mem := 0 } "B" =
      some (0 : ℚ) := by
    simp [Scheduler.candidateScore, Scheduler.score, lookupAL, exDistinct1]
  constructor
  · refine C5_no_sort_order_invariance_without_ties exDistinct1 exDistinct2
      exDistinctPod ?_ rfl rfl rfl ?_
    · intro n
      simp [exDistinct1, exDistinct2]
      tauto
    · intro pr m n sm sn hpr hm hn hsm hsn heq
      have hpr' : pr = ({ cpu := 0, mem := 0 } : SimResources) := by
        have : some ({ cpu := 0, mem := 0 } : SimResources) = some pr := by
          rw [← hpr]
          decide
        injection this with h
        exact h.symm
      subst hpr'
      have hm' : m = "A" ∨ m = "B" := by simpa [exDistinct1] using hm
      have hn' : n = "A" ∨ n = "B" := by simpa [exDistinct1] using hn
      rcases hm' with rfl | rfl <;> rcases hn' with rfl | rfl
      · rfl
      · rw [hA] at hsm
        rw [hB] at hsn
        injection hsm with e1
        injection hsn with e2
        subst e1
        subst e2
        exact absurd heq (by norm_num)
      · rw [hB] at hsm
        rw [hA] at hsn
        injection hsm with e1
        injection hsn with e2
        subst e1
        subst e2
        exact absurd heq (by norm_num)
      · rfl
  · simp [Scheduler.schedule, Scheduler.flow_score, Scheduler.filter,
      Scheduler.scoreLoop, Scheduler.updateBest, Scheduler.candidateScore,
      Scheduler.score, lookupAL, exDistinct1, exDistinctPod, exMeta, exPodSpec]
    norm_num

/-! ## C6: replica-set reconciliation posts exactly the deficit -/

/-- C6.  When `spec.replicas` exceeds `status.ready_replicas`, one
reconciliation POSTs exactly the deficit of manifests to
`/pods?controller=true`; the i-th manifest's name is the replica set's
name, a hyphen, and the first 4 characters of the i-th fresh uuid string
(uuid strings have at least 4 characters); each manifest carries the
controller owner reference and the template's containers verbatim; and the
emitted requests do not depend on the per-POST responses — a failed
creation is only logged, the loop continues, and nothing is rolled back. -/
theorem C6_reconcile_posts_deficit (rs_state : List (Uuid × ReplicaSet)) (rs_id : Uuid)
    (randoms : List String) (responses : List Bool) (rs : ReplicaSet)
    (hrs : lookupAL rs_state rs_id = some rs)
    (hdef : rs.status.ready_replicas < rs.spec.replicas)
    (hlen : ∀ r ∈ randoms, 4 ≤ r.length) :
    (RSController.reconciliate_task rs_state rs_id randoms responses).length =
      rs.spec.replicas - rs.status.ready_replicas ∧
    (∀ req ∈ RSController.reconciliate_task rs_state rs_id randoms responses,
      req.controller = true ∧
      req.manifest.metadata.owner_reference = some
        { id := rs.metadata.id, name := rs.metadata.name, kind := .ReplicaSet,
          controller := true } ∧
      req.manifest.spec.containers = rs.spec.template.spec.containers) ∧
    (∀ i (hi : i <
        (RSController.reconciliate_task rs_state rs_id randoms responses).length),
      ((RSController.reconciliate_task rs_state rs_id randoms responses).get
          ⟨i, hi⟩).manifest.metadata.name =
        rs.metadata.name ++ "-" ++ String.mk ((randoms.getD i "").data.take 4)) ∧
    (∀ i, i < randoms.length →
      (String.mk ((randoms.getD i "").data.take 4)).length = 4) ∧
    (∀ responses2,
      RSController.reconciliate_task rs_state rs_id randoms responses2 =
        RSController.reconciliate_task rs_state rs_id randoms responses) := by
  have hne : ¬ (rs.spec.replicas ≤ rs.status.ready_replicas) := not_le.mpr hdef
  have heq : RSController.reconciliate_task rs_state rs_id randoms responses =
      (List.range (rs.spec.replicas - rs.status.ready_replicas)).map (fun i =>
        { controller := true,
          manifest := PodManifest.from_replicaset rs (randoms.getD i "") }) := by
    simp [RSController.reconciliate_task, hrs, hne]
  refine ⟨?_, ?_, ?_, ?_, ?_⟩
  · rw [heq]
    simp
  · intro req hreq
    rw [heq] at hreq
    obtain ⟨i, hi, hrfl⟩ := List.mem_map.mp hreq
    rw [← hrfl]
    exact ⟨rfl, rfl, rfl⟩
  · intro i hi
    simp [heq, List.get_eq_getElem, PodManifest.from_replicaset]
  · intro i hilen
    have hmem : randoms.getD i "" ∈ randoms := by
      have h1 : randoms[i]? = some randoms[i] := List.getElem?_eq_getElem hilen
      rw [List.getD_eq_getElem?_getD, h1]
      exact List.getElem_mem hilen
    have h4 := hlen _ hmem
    simp only [String.length, List.length_take] at h4 ⊢
    omega
  · intro responses2
    rfl

/-- Witness for C6 at concrete inputs: 2 missing replicas produce exactly
2 POSTs with controller owner references, independent of responses. -/
theorem C6_witness :
    (RSController.reconciliate_task [(3, exRS)] 3
      ["123456789", "abcdefghi"] [true, false]).length = 2 ∧
    (∀ req ∈ RSController.reconciliate_task [(3, exRS)] 3
        ["123456789", "abcdefghi"] [true, false],
      req.controller = true ∧
      req.manifest.metadata.owner_reference = some
        { id := exRS.metadata.id, name := exRS.metadata.name, kind := .ReplicaSet,
          controller := true } ∧
      req.manifest.spec.containers = exRS.spec.template.spec.containers) ∧
    (RSController.reconciliate_task [(3, exRS)] 3
      ["123456789", "abcdefghi"] [false, false] =
      RSController.reconciliate_task [(3, exRS)] 3
        ["123456789", "abcdefghi"] [true, false]) := by
  have h := C6_reconcile_posts_deficit [(3, exRS)] 3 ["123456789", "abcdefghi"]
    [true, false] exRS (by decide) (by decide) (by decide)
  exact ⟨h.1.trans (by decide), h.2.1, h.2.2.2.2 [false, false]⟩

/-! ## C7: node-agent reconcile is idempotent -/

/-- C7.  Under a container engine whose `start_pod` succeeds and returns a
runtime keyed by the pod's id (as the docker manager builds it), running
`reconciliate` twice in sequence invokes the engine exactly once: the
first call starts the pod and stores its `PodRuntime`, the second call
finds that runtime and returns without any engine invocation; moreover
`add_pod_runtime` rejects any duplicate id. -/
theorem C7_reconcile_idempotent
    (start_pod : PodObject → Except String PodRuntime)
    (st : NodeAgentState) (id : Uuid) (pod : PodObject) (rt : PodRuntime)
    (hpod : lookupAL st.pods id = some pod)
    (hnort : lookupAL st.pod_runtimes pod.id = none)
    (hok : start_pod pod = .ok rt)
    (hid : rt.id = pod.id) :
    (reconciliate start_pod st id).2 = [pod.id] ∧
    reconciliate start_pod (reconciliate start_pod st id).1 id =
      ((reconciliate start_pod st id).1, []) ∧
    (∀ (st2 : NodeAgentState) (rt2 : PodRuntime),
      (lookupAL st2.pod_runtimes rt2.id).isSome = true →
      st2.add_pod_runtime rt2 =
        .error ("PodRuntime with ID '" ++ toString rt2.id ++ "' already exists.")) := by
  have h1 : reconciliate start_pod st id =
      ({ st with pod_runtimes := putAL st.pod_runtimes rt.id rt }, [pod.id]) := by
    simp [reconciliate, NodeAgentState.get_pod, NodeAgentState.get_pod_runtime,
      hpod, hnort, hok, NodeAgentState.add_pod_runtime, hid]
  refine ⟨by rw [h1], ?_, ?_⟩
  · rw [h1]
    simp [reconciliate, NodeAgentState.get_pod, NodeAgentState.get_pod_runtime,
      hpod, hid, lookupAL_putAL_self]
  · intro st2 rt2 h
    simp [NodeAgentState.add_pod_runtime, h]

/-- Witness for C7 at concrete inputs: the first reconcile starts pod 21
once, the second is a no-op. -/
theorem C7_witness :
    (reconciliate exStartPod exAgentState 21).2 = [exAgentPod.id] ∧
    reconciliate exStartPod (reconciliate exStartPod exAgentState 21).1 21 =
      ((reconciliate exStartPod exAgentState 21).1, []) :=
  ⟨(C7_reconcile_idempotent exStartPod exAgentState 21 exAgentPod
      { id := 21, name := "p21", containers := [] }
      (by decide) (by decide) rfl (by decide)).1,
   (C7_reconcile_idempotent exStartPod exAgentState 21 exAgentPod
      { id := 21, name := "p21", containers := [] }
      (by decide) (by decide) rfl (by decide)).2.1⟩

end Cr8s
